import Mathlib

/-!
Shallow embedding of the Hagglz bill-negotiation core: the router agent, the
four specialist agents (utility, medical, subscription, telecom) and the
master orchestrator, together with proofs about the confidence-gated workflow.

Python strings are modelled as `List Char` (so that all text operations are
structurally recursive and computable); Python floats are modelled as exact
rationals `ℚ`, with Python's `round(x, n)` modelled as decimal half-even
rounding; an LLM invocation is modelled as a value of `Option (List Char)`:
`some content` for a successful call returning `content`, `none` for a call
that raises.  A stage function takes the outcome of its (potential) LLM call
and the workflow state and returns the updated state; graphs run their stages
in chain order, feeding stage `i` the oracle value at index `i`.
-/

/-- Character list of a string literal. -/
def str (s : String) : List Char := s.data

/-- Does the second list start with the first (Python `startswith`)? -/
def charsStartWith : List Char → List Char → Bool
  | [], _ => true
  | _ :: _, [] => false
  | n :: ns, h :: hs => n = h && charsStartWith ns hs

/-- Does `hay` contain `needle` as a contiguous sublist (Python `in`)? -/
def charsContain (hay needle : List Char) : Bool :=
  match hay with
  | [] => charsStartWith needle []
  | _ :: t => charsStartWith needle hay || charsContain t needle

/-- Python `str.lower` (ASCII, as used on the LLM keyword vocabulary). -/
def lowerChars (l : List Char) : List Char := l.map Char.toLower

/-- Python `str.upper` (ASCII, as used on the category labels). -/
def upperChars (l : List Char) : List Char := l.map Char.toUpper

/-- Python `str.strip`: drop whitespace from both ends. -/
def trimChars (l : List Char) : List Char :=
  ((l.dropWhile Char.isWhitespace).reverse.dropWhile Char.isWhitespace).reverse

/-- Python `str.split('\n')`. -/
def splitLines : List Char → List (List Char)
  | [] => [[]]
  | c :: rest =>
    let r := splitLines rest
    if c = '\n' then [] :: r else (c :: r.headD []) :: r.tail

/-- Python `str.replace(needle, '')` for a non-empty needle `n0 :: ntail`:
delete every occurrence, structurally recursive on a fuel that bounds the
remaining text length (each step consumes at least one character, so fuel
equal to the text length suffices). -/
def removeAllFuel (n0 : Char) (ntail : List Char) : ℕ → List Char → List Char
  | 0, l => l
  | _ + 1, [] => []
  | fuel + 1, c :: rest =>
    if charsStartWith (n0 :: ntail) (c :: rest) then
      removeAllFuel n0 ntail fuel (rest.drop ntail.length)
    else
      c :: removeAllFuel n0 ntail fuel rest

/-- Python `str.replace(needle, '')`; an empty needle is never used by the source. -/
def removeAll (needle hay : List Char) : List Char :=
  match needle with
  | [] => hay
  | n0 :: ntail => removeAllFuel n0 ntail hay.length hay

/-- Number of `true` entries of a list of booleans (Python `sum` over booleans). -/
def countTrue (l : List Bool) : ℕ := (l.filter (fun b => b)).length

/-- Python `round` to an integer: round half to even on the exact rational value. -/
def pyRoundInt (q : ℚ) : ℤ :=
  let f : ℤ := ⌊q⌋
  let r : ℚ := q - f
  if r < 1/2 then f
  else if 1/2 < r then f + 1
  else if f % 2 = 0 then f else f + 1

/-- Python `round(q, n)`: round to `n` decimal places, half to even. -/
def pyRound (q : ℚ) (n : ℕ) : ℚ := (pyRoundInt (q * 10 ^ n) : ℚ) / 10 ^ n

/-- Character class of the regex `[\d,]`. -/
def isDigitOrComma (c : Char) : Bool := c.isDigit || c = ','

/-- Match of the regex `[\d,]+\.?\d*` anchored at the head of `l`
(with `l` known to start with a digit or comma): greedy run of digits and
commas, then an optional dot followed by a greedy run of digits. -/
def numTokenAt (l : List Char) : List Char :=
  let p1 := l.takeWhile isDigitOrComma
  let rest := l.dropWhile isDigitOrComma
  match rest with
  | '.' :: r2 => p1 ++ '.' :: r2.takeWhile Char.isDigit
  | _ => p1

/-- `re.search(r'[\d,]+\.?\d*', l)`: leftmost match of the amount regex. -/
def searchNumToken : List Char → Option (List Char)
  | [] => none
  | c :: rest =>
    if isDigitOrComma c then some (numTokenAt (c :: rest))
    else searchNumToken rest

/-- Numeric value of a digit string (most significant digit first). -/
def digitsVal (l : List Char) : ℕ :=
  l.foldl (fun a c => 10 * a + (c.toNat - 48)) 0

/-- Python `float(tok.replace(',', ''))` on a token produced by the amount
regex: strip commas, then parse `digits`, `digits.digits`, `digits.` or
`.digits`; anything else (such as the empty string or a lone dot) raises
`ValueError`, modelled as `none`. -/
def pyFloatOfToken (tok : List Char) : Option ℚ :=
  let t := tok.filter (fun c => !(c = ','))
  let d1 := t.takeWhile Char.isDigit
  let rest := t.dropWhile Char.isDigit
  match rest with
  | [] => if d1.isEmpty then none else some (digitsVal d1)
  | '.' :: d2 =>
    if d2.all Char.isDigit then
      if d1.isEmpty && d2.isEmpty then none
      else some ((digitsVal d1 : ℚ) + (digitsVal d2 : ℚ) / 10 ^ d2.length)
    else none
  | _ => none

/-- State threaded through the router graph (`BillState` in
`src/hagglz/core/router_agent.py`); `process_bill` initialises every field. -/
structure BillState where
  bill_type : List Char
  ocr_text : List Char
  company : List Char
  amount : ℚ
  negotiation_strategy : List Char
  conversation_history : List (List Char)
  confidence_score : ℚ
  errors : List Char
  script : List Char

/-- The valid category labels of the router. -/
def valid_types : List (List Char) :=
  [str "UTILITY", str "MEDICAL", str "SUBSCRIPTION", str "TELECOM"]

/-- Router stage `route_bill`: classify the bill.  On success the LLM text is
stripped, upper-cased and validated against `valid_types` with fallback
`UTILITY`; on an LLM exception the type defaults to `UTILITY`. -/
def route_bill (llm : Option (List Char)) (state : BillState) : BillState :=
  match llm with
  | some content =>
    let bill_type := upperChars (trimChars content)
    if bill_type ∈ valid_types then { state with bill_type := bill_type }
    else { state with bill_type := str "UTILITY" }
  | none => { state with bill_type := str "UTILITY" }

/-- One iteration of the parsing loop of `extract_bill_details`: a line
starting with `Company:` sets the company to the trimmed remainder; otherwise a
line starting with `Amount:` is searched for the first numeric token, which is
parsed as a float (`0.0` when `float` raises); other lines leave the state
unchanged. -/
def parseDetailLine (state : BillState) (line : List Char) : BillState :=
  if charsStartWith (str "Company:") line then
    { state with company := trimChars (removeAll (str "Company:") line) }
  else if charsStartWith (str "Amount:") line then
    match searchNumToken (trimChars (removeAll (str "Amount:") line)) with
    | some tok => { state with amount := (pyFloatOfToken tok).getD 0 }
    | none => state
  else state

/-- Router stage `extract_bill_details`: on success fold the parsing loop over
the lines of the LLM response; on an LLM exception default the company to
`Unknown` and the amount to `0.0`. -/
def extract_bill_details (llm : Option (List Char)) (state : BillState) : BillState :=
  match llm with
  | some details => (splitLines details).foldl parseDetailLine state
  | none => { state with company := str "Unknown", amount := 0 }

/-- Value contributed by one line to the company field (specification-side
description of the parsing loop). -/
def lineCompanyValue (line : List Char) : Option (List Char) :=
  if charsStartWith (str "Company:") line then
    some (trimChars (removeAll (str "Company:") line))
  else none

/-- Value contributed by one line to the amount field (specification-side
description of the parsing loop): `none` when the line is not an `Amount:`
line or its regex search fails, otherwise the parsed value with `0` for a
float-parse failure. -/
def lineAmountValue (line : List Char) : Option ℚ :=
  if charsStartWith (str "Company:") line then none
  else if charsStartWith (str "Amount:") line then
    match searchNumToken (trimChars (removeAll (str "Amount:") line)) with
    | some tok => some ((pyFloatOfToken tok).getD 0)
    | none => none
  else none

/-- A workflow graph: named stages, edges and an entry point, mirroring the
`add_node` / `add_edge` / `set_entry_point` calls of the source. -/
structure GraphSpec (σ : Type) where
  nodes : List (String × (Option (List Char) → σ → σ))
  edges : List (String × String)
  entry : String

/-- Edge list of a strictly sequential chain over the given node names,
terminated by the `END` marker. -/
def chainEdges : List String → List (String × String)
  | [] => []
  | [a] => [(a, "END")]
  | a :: b :: rest => (a, b) :: chainEdges (b :: rest)

/-- The graph is a strictly sequential linear chain: its edges are exactly the
consecutive pairs of its node list (ending at `END`) and its entry point is
its first node. -/
def IsLinearChain {σ : Type} (g : GraphSpec σ) : Prop :=
  g.edges = chainEdges (g.nodes.map Prod.fst) ∧
  g.entry = (g.nodes.map Prod.fst).headD ""

/-- Run a list of stages in order, feeding stage `i` the oracle value `i`. -/
def runChainAux {σ : Type} :
    List (Option (List Char) → σ → σ) → (ℕ → Option (List Char)) → ℕ → σ → σ
  | [], _, _, s => s
  | f :: fs, oracle, i, s => runChainAux fs oracle (i + 1) (f (oracle i) s)

/-- Run a compiled workflow graph on a state under an LLM oracle. -/
def runGraph {σ : Type} (g : GraphSpec σ) (oracle : ℕ → Option (List Char)) (s : σ) : σ :=
  runChainAux (g.nodes.map Prod.snd) oracle 0 s

/-- The router workflow graph (`create_router_graph`). -/
def routerGraph : GraphSpec BillState :=
  { nodes := [("route", route_bill), ("extract", extract_bill_details)]
    edges := [("route", "extract"), ("extract", "END")]
    entry := "route" }

/-- Initial router state built by `RouterAgent.process_bill`. -/
def initialBillState (ocr_text : List Char) : BillState :=
  { bill_type := [], ocr_text := ocr_text, company := [], amount := 0,
    negotiation_strategy := [], conversation_history := [], confidence_score := 0,
    errors := [], script := [] }

/-- `RouterAgent.process_bill`: run the router graph on a fresh state. -/
def router_process_bill (oracle : ℕ → Option (List Char)) (ocr_text : List Char) : BillState :=
  runGraph routerGraph oracle (initialBillState ocr_text)

/-- Specialist-scoped input state prepared by the orchestrator's
`execute_specialist_agent` (keys `bill_type`, `ocr_text`, `company`, `amount`,
`conversation_history`). -/
structure SpecInput where
  bill_type : List Char
  ocr_text : List Char
  company : List Char
  amount : ℚ
  conversation_history : List (List Char)

/-- State threaded through the utility negotiation graph.  The utility agent's
`target_savings` dict holds a single `percentage` entry, modelled by a `ℚ`. -/
structure UtilState where
  bill_type : List Char
  ocr_text : List Char
  company : List Char
  amount : ℚ
  conversation_history : List (List Char)
  usage_analysis : Option (List Char)
  competitor_research : Option (List Char)
  negotiation_strategy : Option (List Char)
  confidence_score : Option ℚ
  target_savings : Option ℚ

/-- Utility stage `analyse_usage_history`: store the analysis text and set the
confidence from five keyword checks (`0.15` each plus base `0.25`, clamped at
`0.9`); on LLM failure store the sentinel and set confidence `0.3`. -/
def analyse_usage_history (llm : Option (List Char)) (state : UtilState) : UtilState :=
  match llm with
  | some content =>
    let analysis_text := lowerChars content
    let confidence_factors : List Bool :=
      [charsContain analysis_text (str "loyal"),
       charsContain analysis_text (str "savings"),
       charsContain analysis_text (str "competitor"),
       charsContain analysis_text (str "discount"),
       charsContain analysis_text (str "programme")]
    let base_confidence : ℚ := (countTrue confidence_factors : ℚ) * (15/100) + 25/100
    { state with usage_analysis := some content,
                 confidence_score := some (min base_confidence (9/10)) }
  | none =>
    { state with usage_analysis := some (str "Analysis unavailable"),
                 confidence_score := some ((3 : ℚ)/10) }

/-- Utility stage `research_competitors`: store the research text and raise the
confidence by `0.03` per present keyword, clamped at `0.95`; on LLM failure
store the sentinel and leave the confidence unchanged. -/
def research_competitors (llm : Option (List Char)) (state : UtilState) : UtilState :=
  match llm with
  | some content =>
    let text := lowerChars content
    let boost : ℚ :=
      (countTrue
        [charsContain text (str "match"),
         charsContain text (str "beat"),
         charsContain text (str "discount"),
         charsContain text (str "offer"),
         charsContain text (str "promotion")] : ℚ) * (3/100)
    { state with competitor_research := some content,
                 confidence_score :=
                   some (min (state.confidence_score.getD (25/100) + boost) (19/20)) }
  | none =>
    { state with competitor_research := some (str "Research unavailable") }

/-- Utility stage `generate_negotiation_plan`: store the strategy text and a
rough savings percentage `round(100 * min(0.35, confidence), 1)`; on LLM
failure store the failure text and percentage `0.0`. -/
def generate_negotiation_plan (llm : Option (List Char)) (state : UtilState) : UtilState :=
  match llm with
  | some content =>
    { state with negotiation_strategy := some content,
                 target_savings :=
                   some (pyRound (100 * min (35/100) (state.confidence_score.getD (3/10))) 1) }
  | none =>
    { state with negotiation_strategy := some (str "Unable to generate strategy"),
                 target_savings := some 0 }

/-- The utility workflow graph (`UtilityNegotiationAgent.build_graph`). -/
def utilityGraph : GraphSpec UtilState :=
  { nodes := [("analyse_usage_history", analyse_usage_history),
              ("research_competitors", research_competitors),
              ("generate_plan", generate_negotiation_plan)]
    edges := [("analyse_usage_history", "research_competitors"),
              ("research_competitors", "generate_plan"),
              ("generate_plan", "END")]
    entry := "analyse_usage_history" }

/-- Fresh utility state for a specialist invocation. -/
def mkUtilState (inp : SpecInput) : UtilState :=
  { bill_type := inp.bill_type, ocr_text := inp.ocr_text, company := inp.company,
    amount := inp.amount, conversation_history := inp.conversation_history,
    usage_analysis := none, competitor_research := none, negotiation_strategy := none,
    confidence_score := none, target_savings := none }

/-- Run the utility workflow. -/
def runUtility (oracle : ℕ → Option (List Char)) : UtilState → UtilState :=
  runGraph utilityGraph oracle

/-- One savings scenario of the medical agent: dict with keys
`savings_amount`, `final_amount`, `percentage`. -/
structure MedOutcome where
  savings_amount : ℚ
  final_amount : ℚ
  percentage : ℚ
deriving DecidableEq

/-- One savings scenario of the subscription and telecom agents: dict with
keys `monthly_savings`, `annual_savings`, `percentage`. -/
structure ScenarioOutcome where
  monthly_savings : ℚ
  annual_savings : ℚ
  percentage : ℚ
deriving DecidableEq

/-- The three named savings scenarios. -/
structure SavingsTable (α : Type) where
  conservative : α
  moderate : α
  aggressive : α
deriving DecidableEq

/-- State threaded through the medical negotiation graph.  The source reads
`state.get('has_errors', False)`; the flag is modelled as a boolean field that
is `false` for states built by the orchestrator. -/
structure MedState where
  bill_type : List Char
  ocr_text : List Char
  company : List Char
  amount : ℚ
  conversation_history : List (List Char)
  has_errors : Bool
  error_analysis : Option (List Char)
  financial_assistance : Option (List Char)
  negotiation_strategy : Option (List Char)
  script : Option (List Char)
  confidence_score : Option ℚ
  savings_potential : Option (SavingsTable MedOutcome)
  target_savings : Option MedOutcome

/-- Medical stage `check_billing_errors`: store the analysis text, or the
sentinel on LLM failure. -/
def check_billing_errors (llm : Option (List Char)) (state : MedState) : MedState :=
  match llm with
  | some content => { state with error_analysis := some content }
  | none => { state with error_analysis := some (str "Analysis unavailable") }

/-- Medical stage `assess_financial_hardship`: store the assessment text, or
the sentinel on LLM failure. -/
def assess_financial_hardship (llm : Option (List Char)) (state : MedState) : MedState :=
  match llm with
  | some content => { state with financial_assistance := some content }
  | none =>
    { state with
        financial_assistance := some (str "Financial assistance assessment unavailable") }

/-- Medical stage `generate_medical_strategy`: store the strategy text and set
the confidence from base `0.4` plus bonuses for the error flag, a large
amount, and the `charity` / `uninsured` keywords, clamped at `0.9`; on LLM
failure store the failure text and set confidence `0.3`. -/
def generate_medical_strategy (llm : Option (List Char)) (state : MedState) : MedState :=
  match llm with
  | some content =>
    let t := lowerChars content
    let base_confidence : ℚ :=
      4/10 + (if state.has_errors then 2/10 else 0) +
        (if 1000 < state.amount then 1/10 else 0) +
        (if charsContain t (str "charity") then 1/10 else 0) +
        (if charsContain t (str "uninsured") then 1/10 else 0)
    { state with negotiation_strategy := some content,
                 confidence_score := some (min base_confidence (9/10)) }
  | none =>
    { state with negotiation_strategy := some (str "Strategy generation failed"),
                 confidence_score := some ((3 : ℚ)/10) }

/-- Medical stage `create_medical_script`: store the script text, or the
sentinel on LLM failure (the script-template selection only shapes the
prompt and leaves the state untouched). -/
def create_medical_script (llm : Option (List Char)) (state : MedState) : MedState :=
  match llm with
  | some content => { state with script := some content }
  | none => { state with script := some (str "Script generation failed") }

/-- Medical stage `calculate_medical_savings`: pure arithmetic over the bill
amount using the error-dependent percentage table; the target scenario is
aggressive when confidence exceeds `0.8` or an error was flagged, moderate
above `0.6`, conservative otherwise. -/
def calculate_medical_savings (_llm : Option (List Char)) (state : MedState) : MedState :=
  let current_amount := state.amount
  let scen : SavingsTable ℚ :=
    if state.has_errors then ⟨2/10, 4/10, 6/10⟩ else ⟨15/100, 3/10, 5/10⟩
  let entry : ℚ → MedOutcome := fun percentage =>
    let savings_amount := current_amount * percentage
    ⟨pyRound savings_amount 2, pyRound (current_amount - savings_amount) 2,
     percentage * 100⟩
  let savings_analysis : SavingsTable MedOutcome :=
    ⟨entry scen.conservative, entry scen.moderate, entry scen.aggressive⟩
  let confidence := state.confidence_score.getD (5/10)
  let target :=
    if 8/10 < confidence ∨ state.has_errors then savings_analysis.aggressive
    else if 6/10 < confidence then savings_analysis.moderate
    else savings_analysis.conservative
  { state with savings_potential := some savings_analysis,
               target_savings := some target }

/-- The medical workflow graph (`MedicalNegotiationAgent.build_graph`). -/
def medicalGraph : GraphSpec MedState :=
  { nodes := [("check_errors", check_billing_errors),
              ("assess_hardship", assess_financial_hardship),
              ("generate_strategy", generate_medical_strategy),
              ("create_script", create_medical_script),
              ("calculate_savings", calculate_medical_savings)]
    edges := [("check_errors", "assess_hardship"),
              ("assess_hardship", "generate_strategy"),
              ("generate_strategy", "create_script"),
              ("create_script", "calculate_savings"),
              ("calculate_savings", "END")]
    entry := "check_errors" }

/-- Fresh medical state for a specialist invocation. -/
def mkMedState (inp : SpecInput) : MedState :=
  { bill_type := inp.bill_type, ocr_text := inp.ocr_text, company := inp.company,
    amount := inp.amount, conversation_history := inp.conversation_history,
    has_errors := false, error_analysis := none, financial_assistance := none,
    negotiation_strategy := none, script := none, confidence_score := none,
    savings_potential := none, target_savings := none }

/-- Run the medical workflow. -/
def runMedical (oracle : ℕ → Option (List Char)) : MedState → MedState :=
  runGraph medicalGraph oracle

/-- Static metadata of a subscription sub-type (`subscription_types` table). -/
structure SubTypeInfo where
  negotiation_potential : ℚ
  common_discounts : List (List Char)
  typical_savings : ℚ
deriving DecidableEq

/-- `subscription_types['streaming']`. -/
def streamingInfo : SubTypeInfo :=
  ⟨7/10, [str "student", str "annual", str "bundle", str "loyalty"], 25/100⟩

/-- `subscription_types['software']`. -/
def softwareInfo : SubTypeInfo :=
  ⟨8/10, [str "annual", str "multi-user", str "nonprofit", str "startup"], 3/10⟩

/-- `subscription_types['fitness']`. -/
def fitnessInfo : SubTypeInfo :=
  ⟨9/10, [str "annual", str "family", str "corporate", str "student"], 35/100⟩

/-- `subscription_types['news']`. -/
def newsInfo : SubTypeInfo :=
  ⟨8/10, [str "student", str "senior", str "annual", str "digital-only"], 4/10⟩

/-- `subscription_types['cloud']`. -/
def cloudInfo : SubTypeInfo :=
  ⟨6/10, [str "annual", str "volume", str "startup", str "nonprofit"], 2/10⟩

/-- First key of `subscription_types` (in insertion order) contained in the
lower-cased analysis text, defaulting to `other` (the source's for/break
loop). -/
def detectSubscriptionType (analysis_text : List Char) : List Char :=
  if charsContain analysis_text (str "streaming") then str "streaming"
  else if charsContain analysis_text (str "software") then str "software"
  else if charsContain analysis_text (str "fitness") then str "fitness"
  else if charsContain analysis_text (str "news") then str "news"
  else if charsContain analysis_text (str "cloud") then str "cloud"
  else str "other"

/-- `subscription_types.get(detected, fallback)` with the inline fallback
dict of `identify_subscription_type`. -/
def subscriptionInfoFor (detected : List Char) : SubTypeInfo :=
  if detected = str "streaming" then streamingInfo
  else if detected = str "software" then softwareInfo
  else if detected = str "fitness" then fitnessInfo
  else if detected = str "news" then newsInfo
  else if detected = str "cloud" then cloudInfo
  else ⟨6/10, [str "annual", str "loyalty"], 25/100⟩

/-- State threaded through the subscription negotiation graph. -/
structure SubState where
  bill_type : List Char
  ocr_text : List Char
  company : List Char
  amount : ℚ
  conversation_history : List (List Char)
  subscription_analysis : Option (List Char)
  subscription_type : Option (List Char)
  type_info : Option SubTypeInfo
  usage_analysis : Option (List Char)
  alternatives_research : Option (List Char)
  negotiation_strategy : Option (List Char)
  script : Option (List Char)
  confidence_score : Option ℚ
  savings_potential : Option (SavingsTable ScenarioOutcome)
  target_savings : Option ScenarioOutcome

/-- Subscription stage `identify_subscription_type`: store the analysis text,
the detected sub-type and its metadata; on LLM failure store the sentinel,
sub-type `other` and the `streaming` metadata (the source's failure default). -/
def identify_subscription_type (llm : Option (List Char)) (state : SubState) : SubState :=
  match llm with
  | some content =>
    let analysis_text := lowerChars content
    let detected := detectSubscriptionType analysis_text
    { state with subscription_analysis := some content,
                 subscription_type := some detected,
                 type_info := some (subscriptionInfoFor detected) }
  | none =>
    { state with subscription_analysis := some (str "Analysis unavailable"),
                 subscription_type := some (str "other"),
                 type_info := some streamingInfo }

/-- Subscription stage `analyse_usage_patterns`: store the analysis text, or
the sentinel on LLM failure. -/
def analyse_usage_patterns (llm : Option (List Char)) (state : SubState) : SubState :=
  match llm with
  | some content => { state with usage_analysis := some content }
  | none => { state with usage_analysis := some (str "Usage analysis unavailable") }

/-- Subscription stage `research_alternatives`: store the research text, or
the sentinel on LLM failure. -/
def research_alternatives (llm : Option (List Char)) (state : SubState) : SubState :=
  match llm with
  | some content => { state with alternatives_research := some content }
  | none =>
    { state with
        alternatives_research := some (str "Alternatives research unavailable") }

/-- Subscription stage `generate_subscription_strategy`: store the strategy
text and set the confidence to `0.7` times the sub-type's negotiation
potential plus `0.05` per present keyword, clamped at `0.9`; on LLM failure
store the failure text and set confidence `0.4`. -/
def generate_subscription_strategy (llm : Option (List Char)) (state : SubState) : SubState :=
  let negotiation_potential :=
    (state.type_info.map SubTypeInfo.negotiation_potential).getD (6/10)
  match llm with
  | some content =>
    let t := lowerChars content
    let strategy_bonus : ℚ :=
      (countTrue
        [charsContain t (str "competitor"),
         charsContain t (str "discount"),
         charsContain t (str "cancel"),
         charsContain t (str "alternative"),
         charsContain t (str "loyalty")] : ℚ) * (5/100)
    { state with negotiation_strategy := some content,
                 confidence_score :=
                   some (min (negotiation_potential * (7/10) + strategy_bonus) (9/10)) }
  | none =>
    { state with negotiation_strategy := some (str "Strategy generation failed"),
                 confidence_score := some ((4 : ℚ)/10) }

/-- Subscription stage `create_subscription_script`: store the script text, or
the sentinel on LLM failure. -/
def create_subscription_script (llm : Option (List Char)) (state : SubState) : SubState :=
  match llm with
  | some content => { state with script := some content }
  | none => { state with script := some (str "Script generation failed") }

/-- Subscription stage `calculate_subscription_savings`: pure arithmetic over
the bill amount using percentages derived from the sub-type's typical
savings; the target scenario is selected by confidence thresholding. -/
def calculate_subscription_savings (_llm : Option (List Char)) (state : SubState) : SubState :=
  let current_amount := state.amount
  let typical_savings := (state.type_info.map SubTypeInfo.typical_savings).getD (25/100)
  let scen : SavingsTable ℚ :=
    ⟨typical_savings * (6/10), typical_savings, typical_savings * (14/10)⟩
  let entry : ℚ → ScenarioOutcome := fun percentage =>
    let monthly_savings := current_amount * percentage
    let annual_savings := monthly_savings * 12
    ⟨pyRound monthly_savings 2, pyRound annual_savings 2, pyRound (percentage * 100) 1⟩
  let savings_analysis : SavingsTable ScenarioOutcome :=
    ⟨entry scen.conservative, entry scen.moderate, entry scen.aggressive⟩
  let confidence := state.confidence_score.getD (5/10)
  let target :=
    if 8/10 < confidence then savings_analysis.aggressive
    else if 6/10 < confidence then savings_analysis.moderate
    else savings_analysis.conservative
  { state with savings_potential := some savings_analysis,
               target_savings := some target }

/-- The subscription workflow graph (`SubscriptionNegotiationAgent.build_graph`). -/
def subscriptionGraph : GraphSpec SubState :=
  { nodes := [("identify_type", identify_subscription_type),
              ("analyse_usage", analyse_usage_patterns),
              ("research_alternatives", research_alternatives),
              ("generate_strategy", generate_subscription_strategy),
              ("create_script", create_subscription_script),
              ("calculate_savings", calculate_subscription_savings)]
    edges := [("identify_type", "analyse_usage"),
              ("analyse_usage", "research_alternatives"),
              ("research_alternatives", "generate_strategy"),
              ("generate_strategy", "create_script"),
              ("create_script", "calculate_savings"),
              ("calculate_savings", "END")]
    entry := "identify_type" }

/-- Fresh subscription state for a specialist invocation. -/
def mkSubState (inp : SpecInput) : SubState :=
  { bill_type := inp.bill_type, ocr_text := inp.ocr_text, company := inp.company,
    amount := inp.amount, conversation_history := inp.conversation_history,
    subscription_analysis := none, subscription_type := none, type_info := none,
    usage_analysis := none, alternatives_research := none, negotiation_strategy := none,
    script := none, confidence_score := none, savings_potential := none,
    target_savings := none }

/-- Run the subscription workflow. -/
def runSubscription (oracle : ℕ → Option (List Char)) : SubState → SubState :=
  runGraph subscriptionGraph oracle

/-- Static metadata of a telecom service type (`telecom_types` table). -/
structure TelTypeInfo where
  negotiation_potential : ℚ
  common_tactics : List (List Char)
  typical_savings : ℚ
  key_factors : List (List Char)
deriving DecidableEq

/-- `telecom_types['mobile']`. -/
def mobileInfo : TelTypeInfo :=
  ⟨8/10, [str "competitor_comparison", str "usage_analysis", str "loyalty_discount"],
   25/100, [str "data_usage", str "call_minutes", str "contract_status"]⟩

/-- `telecom_types['internet']`. -/
def internetInfo : TelTypeInfo :=
  ⟨9/10, [str "speed_downgrade", str "competitor_offers", str "bundle_analysis"],
   3/10, [str "speed_requirements", str "data_caps", str "promotional_expiry"]⟩

/-- `telecom_types['cable']`. -/
def cableInfo : TelTypeInfo :=
  ⟨9/10, [str "cord_cutting_threat", str "channel_reduction", str "streaming_alternatives"],
   35/100, [str "channel_usage", str "streaming_services", str "contract_terms"]⟩

/-- `telecom_types['landline']`. -/
def landlineInfo : TelTypeInfo :=
  ⟨7/10, [str "necessity_question", str "basic_plan", str "bundle_removal"],
   4/10, [str "actual_usage", str "mobile_alternative", str "emergency_needs"]⟩

/-- `telecom_types['bundle']`. -/
def bundleInfo : TelTypeInfo :=
  ⟨8/10, [str "service_separation", str "competitor_bundles", str "usage_optimisation"],
   25/100, [str "individual_service_costs", str "usage_patterns", str "contract_flexibility"]⟩

/-- The elif chain of `identify_telecom_services` over the lower-cased
analysis text, defaulting to `bundle` (the final elif assigns `bundle`, which
is already the default). -/
def detectTelecomType (t : List Char) : List Char :=
  if charsContain t (str "mobile") || charsContain t (str "cell") then str "mobile"
  else if charsContain t (str "internet") && !(charsContain t (str "cable")) then
    str "internet"
  else if charsContain t (str "cable") || charsContain t (str "tv") then str "cable"
  else if charsContain t (str "landline") || charsContain t (str "home phone") then
    str "landline"
  else str "bundle"

/-- `telecom_types.get(detected, telecom_types['bundle'])`. -/
def telecomInfoFor (detected : List Char) : TelTypeInfo :=
  if detected = str "mobile" then mobileInfo
  else if detected = str "internet" then internetInfo
  else if detected = str "cable" then cableInfo
  else if detected = str "landline" then landlineInfo
  else bundleInfo

/-- State threaded through the telecom negotiation graph. -/
structure TelState where
  bill_type : List Char
  ocr_text : List Char
  company : List Char
  amount : ℚ
  conversation_history : List (List Char)
  service_analysis : Option (List Char)
  telecom_type : Option (List Char)
  type_info : Option TelTypeInfo
  usage_analysis : Option (List Char)
  competitor_research : Option (List Char)
  negotiation_strategy : Option (List Char)
  script : Option (List Char)
  confidence_score : Option ℚ
  savings_potential : Option (SavingsTable ScenarioOutcome)
  target_savings : Option ScenarioOutcome

/-- Telecom stage `identify_telecom_services`: store the analysis text, the
detected service type and its metadata; on LLM failure store the sentinel,
type `bundle` and the `bundle` metadata. -/
def identify_telecom_services (llm : Option (List Char)) (state : TelState) : TelState :=
  match llm with
  | some content =>
    let analysis_text := lowerChars content
    let detected := detectTelecomType analysis_text
    { state with service_analysis := some content,
                 telecom_type := some detected,
                 type_info := some (telecomInfoFor detected) }
  | none =>
    { state with service_analysis := some (str "Analysis unavailable"),
                 telecom_type := some (str "bundle"),
                 type_info := some bundleInfo }

/-- Telecom stage `analyse_usage_and_needs`: store the analysis text, or the
sentinel on LLM failure. -/
def analyse_usage_and_needs (llm : Option (List Char)) (state : TelState) : TelState :=
  match llm with
  | some content => { state with usage_analysis := some content }
  | none => { state with usage_analysis := some (str "Usage analysis unavailable") }

/-- Telecom stage `research_competitor_offers`: store the research text, or
the sentinel on LLM failure. -/
def research_competitor_offers (llm : Option (List Char)) (state : TelState) : TelState :=
  match llm with
  | some content => { state with competitor_research := some content }
  | none =>
    { state with competitor_research := some (str "Competitor research unavailable") }

/-- Telecom stage `generate_telecom_strategy`: store the strategy text and set
the confidence to `0.8` times the service type's negotiation potential plus
`0.04` per present keyword, clamped at `0.95`; on LLM failure store the
failure text and set confidence `0.5`. -/
def generate_telecom_strategy (llm : Option (List Char)) (state : TelState) : TelState :=
  let negotiation_potential :=
    (state.type_info.map TelTypeInfo.negotiation_potential).getD (8/10)
  match llm with
  | some content =>
    let t := lowerChars content
    let strategy_bonus : ℚ :=
      (countTrue
        [charsContain t (str "competitor"),
         charsContain t (str "retention"),
         charsContain t (str "promotional"),
         charsContain t (str "usage"),
         charsContain t (str "cancel")] : ℚ) * (4/100)
    { state with negotiation_strategy := some content,
                 confidence_score :=
                   some (min (negotiation_potential * (8/10) + strategy_bonus) (19/20)) }
  | none =>
    { state with negotiation_strategy := some (str "Strategy generation failed"),
                 confidence_score := some ((5 : ℚ)/10) }

/-- Telecom stage `create_telecom_script`: store the script text, or the
sentinel on LLM failure. -/
def create_telecom_script (llm : Option (List Char)) (state : TelState) : TelState :=
  match llm with
  | some content => { state with script := some content }
  | none => { state with script := some (str "Script generation failed") }

/-- Telecom stage `calculate_telecom_savings`: pure arithmetic over the bill
amount using percentages derived from the service type's typical savings; the
target is aggressive only when both the confidence and the negotiation
potential exceed `0.8`, moderate above confidence `0.6`, else conservative. -/
def calculate_telecom_savings (_llm : Option (List Char)) (state : TelState) : TelState :=
  let current_amount := state.amount
  let typical_savings := (state.type_info.map TelTypeInfo.typical_savings).getD (25/100)
  let scen : SavingsTable ℚ :=
    ⟨typical_savings * (7/10), typical_savings, typical_savings * (13/10)⟩
  let entry : ℚ → ScenarioOutcome := fun percentage =>
    let monthly_savings := current_amount * percentage
    let annual_savings := monthly_savings * 12
    ⟨pyRound monthly_savings 2, pyRound annual_savings 2, pyRound (percentage * 100) 1⟩
  let savings_analysis : SavingsTable ScenarioOutcome :=
    ⟨entry scen.conservative, entry scen.moderate, entry scen.aggressive⟩
  let confidence := state.confidence_score.getD (5/10)
  let negotiation_potential :=
    (state.type_info.map TelTypeInfo.negotiation_potential).getD (8/10)
  let target :=
    if 8/10 < confidence ∧ 8/10 < negotiation_potential then savings_analysis.aggressive
    else if 6/10 < confidence then savings_analysis.moderate
    else savings_analysis.conservative
  { state with savings_potential := some savings_analysis,
               target_savings := some target }

/-- The telecom workflow graph (`TelecomNegotiationAgent.build_graph`). -/
def telecomGraph : GraphSpec TelState :=
  { nodes := [("identify_services", identify_telecom_services),
              ("analyse_usage", analyse_usage_and_needs),
              ("research_competitors", research_competitor_offers),
              ("generate_strategy", generate_telecom_strategy),
              ("create_script", create_telecom_script),
              ("calculate_savings", calculate_telecom_savings)]
    edges := [("identify_services", "analyse_usage"),
              ("analyse_usage", "research_competitors"),
              ("research_competitors", "generate_strategy"),
              ("generate_strategy", "create_script"),
              ("create_script", "calculate_savings"),
              ("calculate_savings", "END")]
    entry := "identify_services" }

/-- Fresh telecom state for a specialist invocation. -/
def mkTelState (inp : SpecInput) : TelState :=
  { bill_type := inp.bill_type, ocr_text := inp.ocr_text, company := inp.company,
    amount := inp.amount, conversation_history := inp.conversation_history,
    service_analysis := none, telecom_type := none, type_info := none,
    usage_analysis := none, competitor_research := none, negotiation_strategy := none,
    script := none, confidence_score := none, savings_potential := none,
    target_savings := none }

/-- Run the telecom workflow. -/
def runTelecom (oracle : ℕ → Option (List Char)) : TelState → TelState :=
  runGraph telecomGraph oracle

/-- The orchestrator's view of a `target_savings` payload, which differs in
shape per specialist. -/
inductive TargetSavings where
  | utilityPct (percentage : ℚ)
  | medicalScenario (outcome : MedOutcome)
  | recurringScenario (outcome : ScenarioOutcome)
deriving DecidableEq

/-- The orchestrator's view of the dict returned by a specialist workflow (or
of the error stub built on a specialist failure): exactly the keys the
orchestrator reads, each optional because the dicts have different key sets. -/
structure SpecView where
  confidence_score : Option ℚ
  negotiation_strategy : Option (List Char)
  script : Option (List Char)
  target_savings : Option TargetSavings
  error : Option (List Char)
  strategy : Option (List Char)
deriving DecidableEq

/-- View of a finished utility state (the utility agent never writes `script`). -/
def utilView (s : UtilState) : SpecView :=
  ⟨s.confidence_score, s.negotiation_strategy, none,
   s.target_savings.map TargetSavings.utilityPct, none, none⟩

/-- View of a finished medical state. -/
def medView (s : MedState) : SpecView :=
  ⟨s.confidence_score, s.negotiation_strategy, s.script,
   s.target_savings.map TargetSavings.medicalScenario, none, none⟩

/-- View of a finished subscription state. -/
def subView (s : SubState) : SpecView :=
  ⟨s.confidence_score, s.negotiation_strategy, s.script,
   s.target_savings.map TargetSavings.recurringScenario, none, none⟩

/-- View of a finished telecom state. -/
def telView (s : TelState) : SpecView :=
  ⟨s.confidence_score, s.negotiation_strategy, s.script,
   s.target_savings.map TargetSavings.recurringScenario, none, none⟩

/-- The `bill_data` dict of the orchestrator state: incoming OCR text plus the
fields merged in by the routing stage. -/
structure BillData where
  text : List Char
  company : Option (List Char)
  amount : Option ℚ
  bill_type : Option (List Char)

/-- The mode-specific `execution_instructions` payload; fields not used by a
given mode keep their defaults. -/
structure ExecInstructions where
  mode : List Char
  confidence : ℚ
  strategy : List Char := []
  script : List Char := []
  target_savings : Option TargetSavings := none
  next_steps : List (List Char) := []
  supervision_required : List (List Char) := []
  reason : List Char := []
  available_strategy : List Char := []
  available_script : List Char := []
  potential_savings : Option TargetSavings := none
  recommendations : List (List Char) := []

/-- The `final_result` record assembled by `finalize_processing`. -/
structure FinalResult where
  bill_type : List Char
  confidence_score : ℚ
  execution_mode : List Char
  company : List Char
  amount : ℚ
  negotiation_strategy : List Char
  negotiation_script : List Char
  target_savings : Option TargetSavings
  execution_instructions : Option ExecInstructions
  processing_errors : List (List Char)

/-- The orchestrator's `NegotiationState` with the defaults installed by its
constructor. -/
structure NegotiationState where
  messages : List (List Char)
  bill_data : BillData
  agent_decision : List Char
  negotiation_result : Option SpecView
  confidence_score : ℚ
  execution_mode : List Char
  error_messages : List (List Char)
  processing_status : List Char
  user_id : List Char
  execution_instructions : Option ExecInstructions
  final_result : Option FinalResult

/-- Orchestrator stage `route_negotiation`: missing OCR text raises a
`ValueError` that is caught locally (error recorded, `UTILITY` fallback);
otherwise the router agent runs and its classification and extracted fields
are merged into the state. -/
def route_negotiation (oracle : ℕ → Option (List Char)) (state : NegotiationState) :
    NegotiationState :=
  if state.bill_data.text = [] then
    { state with
        error_messages :=
          state.error_messages ++ [str "Routing error: No OCR text provided in bill data"],
        agent_decision := str "UTILITY",
        processing_status := str "routing_error" }
  else
    let router_result := router_process_bill oracle state.bill_data.text
    { state with
        agent_decision := router_result.bill_type,
        bill_data :=
          { state.bill_data with
              company := some router_result.company,
              amount := some router_result.amount,
              bill_type := some router_result.bill_type },
        processing_status := str "routed" }

/-- The specialist-scoped sub-state prepared by `execute_specialist_agent`. -/
def mkSpecInput (state : NegotiationState) (agent_type : List Char) : SpecInput :=
  { bill_type := (state.bill_data.bill_type).getD agent_type,
    ocr_text := state.bill_data.text,
    company := (state.bill_data.company).getD (str "Unknown"),
    amount := (state.bill_data.amount).getD 0,
    conversation_history := state.messages }

/-- The four-entry dispatch table `agent_workflows` of
`execute_specialist_agent`: `none` models a dispatch-table miss. -/
def runSpecialistFor (agent_type : List Char) :
    Option ((ℕ → Option (List Char)) → SpecInput → SpecView) :=
  if agent_type = str "UTILITY" then
    some (fun oracle inp => utilView (runUtility oracle (mkUtilState inp)))
  else if agent_type = str "MEDICAL" then
    some (fun oracle inp => medView (runMedical oracle (mkMedState inp)))
  else if agent_type = str "SUBSCRIPTION" then
    some (fun oracle inp => subView (runSubscription oracle (mkSubState inp)))
  else if agent_type = str "TELECOM" then
    some (fun oracle inp => telView (runTelecom oracle (mkTelState inp)))
  else none

/-- Merge a successful specialist result into the orchestrator state:
`confidence_score` defaults to `0.5` when the result carries none. -/
def apply_specialist_result (result : SpecView) (state : NegotiationState) :
    NegotiationState :=
  { state with
      negotiation_result := some result,
      confidence_score := (result.confidence_score).getD (5/10),
      processing_status := str "specialist_complete" }

/-- Orchestrator stage `execute_specialist_agent`: dispatch on the routing
decision; a dispatch-table miss is caught locally (error recorded, confidence
forced to `0.0`, error stub result).  The specialist's oracle indices start at
`2` (the router consumed `0` and `1`). -/
def execute_specialist_agent (oracle : ℕ → Option (List Char))
    (state : NegotiationState) : NegotiationState :=
  let agent_type := state.agent_decision
  match runSpecialistFor agent_type with
  | some run => apply_specialist_result (run (fun i => oracle (i + 2)) (mkSpecInput state agent_type)) state
  | none =>
    { state with
        error_messages :=
          state.error_messages ++
            [str "Specialist execution error: Unknown agent type: " ++ agent_type],
        confidence_score := 0,
        processing_status := str "specialist_error",
        negotiation_result :=
          some ⟨none, none, some (str "Unable to generate script due to error"), none,
                some (str "Unknown agent type: " ++ agent_type),
                some (str "Error occurred during processing")⟩ }

/-- `CONFIDENCE_THRESHOLD_AUTO = 0.8`. -/
def CONFIDENCE_THRESHOLD_AUTO : ℚ := 8/10

/-- `CONFIDENCE_THRESHOLD_SUPERVISED = 0.5`. -/
def CONFIDENCE_THRESHOLD_SUPERVISED : ℚ := 5/10

/-- Orchestrator branch predicate `evaluate_confidence`: select the execution
mode from the confidence score by the two fixed thresholds. -/
def evaluate_confidence (confidence : ℚ) : List Char :=
  if CONFIDENCE_THRESHOLD_AUTO ≤ confidence then str "auto_execute"
  else if CONFIDENCE_THRESHOLD_SUPERVISED ≤ confidence then str "supervised"
  else str "human_handoff"

/-- The `evaluate` node records the chosen mode in the state. -/
def evaluate_confidence_node (state : NegotiationState) : NegotiationState :=
  { state with execution_mode := evaluate_confidence state.confidence_score }

/-- Orchestrator stage `auto_execute_negotiation`. -/
def auto_execute_negotiation (state : NegotiationState) : NegotiationState :=
  { state with
      processing_status := str "auto_ready",
      execution_instructions := some
        { mode := str "automatic",
          confidence := state.confidence_score,
          strategy := ((state.negotiation_result.bind SpecView.negotiation_strategy).getD []),
          script := ((state.negotiation_result.bind SpecView.script).getD []),
          target_savings := state.negotiation_result.bind SpecView.target_savings,
          next_steps :=
            [str "Execute negotiation script automatically",
             str "Monitor conversation progress",
             str "Apply fallback strategies if needed",
             str "Report results to user"] } }

/-- Orchestrator stage `supervised_execution`. -/
def supervised_execution (state : NegotiationState) : NegotiationState :=
  { state with
      processing_status := str "supervised_ready",
      execution_instructions := some
        { mode := str "supervised",
          confidence := state.confidence_score,
          strategy := ((state.negotiation_result.bind SpecView.negotiation_strategy).getD []),
          script := ((state.negotiation_result.bind SpecView.script).getD []),
          target_savings := state.negotiation_result.bind SpecView.target_savings,
          supervision_required :=
            [str "Review negotiation strategy before execution",
             str "Monitor conversation in real-time",
             str "Approve key negotiation points",
             str "Intervene if conversation goes off-track"],
          next_steps :=
            [str "Present strategy for human review",
             str "Execute with human oversight",
             str "Confirm key decisions during negotiation",
             str "Report results to user"] } }

/-- Orchestrator stage `human_handoff`. -/
def human_handoff (state : NegotiationState) : NegotiationState :=
  { state with
      processing_status := str "human_handoff_ready",
      execution_instructions := some
        { mode := str "human_handoff",
          confidence := state.confidence_score,
          reason := str "Low confidence score requires human intervention",
          available_strategy := ((state.negotiation_result.bind SpecView.negotiation_strategy).getD []),
          available_script := ((state.negotiation_result.bind SpecView.script).getD []),
          potential_savings := state.negotiation_result.bind SpecView.target_savings,
          recommendations :=
            [str "Review AI-generated strategy and script",
             str "Conduct manual analysis of bill details",
             str "Research additional negotiation angles",
             str "Execute negotiation with human expertise",
             str "Use AI analysis as supporting information"],
          next_steps :=
            [str "Human review of all analysis",
             str "Manual negotiation execution",
             str "Optional use of AI-generated talking points",
             str "Human-driven strategy adjustments"] } }

/-- Orchestrator stage `finalize_processing`: assemble the result record,
defaulting every missing field. -/
def finalize_processing (state : NegotiationState) : NegotiationState :=
  { state with
      processing_status := str "complete",
      final_result := some
        { bill_type := state.agent_decision,
          confidence_score := state.confidence_score,
          execution_mode := state.execution_mode,
          company := (state.bill_data.company).getD (str "Unknown"),
          amount := (state.bill_data.amount).getD 0,
          negotiation_strategy :=
            (state.negotiation_result.bind SpecView.negotiation_strategy).getD [],
          negotiation_script := (state.negotiation_result.bind SpecView.script).getD [],
          target_savings := state.negotiation_result.bind SpecView.target_savings,
          execution_instructions := state.execution_instructions,
          processing_errors := state.error_messages } }

/-- One full orchestrator run: route, execute the specialist, evaluate the
confidence, take exactly one mode branch, finalize. -/
def runOrchestrator (oracle : ℕ → Option (List Char)) (state : NegotiationState) :
    NegotiationState :=
  let s1 := route_negotiation oracle state
  let s2 := execute_specialist_agent oracle s1
  let s3 := evaluate_confidence_node s2
  let mode := evaluate_confidence s3.confidence_score
  let s4 :=
    if mode = str "auto_execute" then auto_execute_negotiation s3
    else if mode = str "supervised" then supervised_execution s3
    else human_handoff s3
  finalize_processing s4

/-- Fresh orchestrator state built by `MasterOrchestrator.process_bill`. -/
def initialNegotiationState (bill_data : BillData) (user_id : List Char) :
    NegotiationState :=
  { messages := [], bill_data := bill_data, agent_decision := [],
    negotiation_result := none, confidence_score := 0, execution_mode := [],
    error_messages := [], processing_status := str "pending", user_id := user_id,
    execution_instructions := none, final_result := none }

/-- `MasterOrchestrator.process_bill`: run the workflow and return its
`final_result`. -/
def orchestrator_process_bill (oracle : ℕ → Option (List Char)) (bill_data : BillData)
    (user_id : List Char) : Option FinalResult :=
  (runOrchestrator oracle (initialNegotiationState bill_data user_id)).final_result

/-- State after the first utility stage of a specialist invocation. -/
def utilStage1 (oracle : ℕ → Option (List Char)) (inp : SpecInput) : UtilState :=
  analyse_usage_history (oracle 0) (mkUtilState inp)

/-- State after the second utility stage. -/
def utilStage2 (oracle : ℕ → Option (List Char)) (inp : SpecInput) : UtilState :=
  research_competitors (oracle 1) (utilStage1 oracle inp)

/-- State after the third utility stage. -/
def utilStage3 (oracle : ℕ → Option (List Char)) (inp : SpecInput) : UtilState :=
  generate_negotiation_plan (oracle 2) (utilStage2 oracle inp)

/-- State after the first medical stage of a specialist invocation. -/
def medStage1 (oracle : ℕ → Option (List Char)) (inp : SpecInput) : MedState :=
  check_billing_errors (oracle 0) (mkMedState inp)

/-- State after the second medical stage. -/
def medStage2 (oracle : ℕ → Option (List Char)) (inp : SpecInput) : MedState :=
  assess_financial_hardship (oracle 1) (medStage1 oracle inp)

/-- State after the third medical stage. -/
def medStage3 (oracle : ℕ → Option (List Char)) (inp : SpecInput) : MedState :=
  generate_medical_strategy (oracle 2) (medStage2 oracle inp)

/-- State after the fourth medical stage. -/
def medStage4 (oracle : ℕ → Option (List Char)) (inp : SpecInput) : MedState :=
  create_medical_script (oracle 3) (medStage3 oracle inp)

/-- State after the fifth medical stage. -/
def medStage5 (oracle : ℕ → Option (List Char)) (inp : SpecInput) : MedState :=
  calculate_medical_savings (oracle 4) (medStage4 oracle inp)

/-- State after the first subscription stage of a specialist invocation. -/
def subStage1 (oracle : ℕ → Option (List Char)) (inp : SpecInput) : SubState :=
  identify_subscription_type (oracle 0) (mkSubState inp)

/-- State after the second subscription stage. -/
def subStage2 (oracle : ℕ → Option (List Char)) (inp : SpecInput) : SubState :=
  analyse_usage_patterns (oracle 1) (subStage1 oracle inp)

/-- State after the third subscription stage. -/
def subStage3 (oracle : ℕ → Option (List Char)) (inp : SpecInput) : SubState :=
  research_alternatives (oracle 2) (subStage2 oracle inp)

/-- State after the fourth subscription stage. -/
def subStage4 (oracle : ℕ → Option (List Char)) (inp : SpecInput) : SubState :=
  generate_subscription_strategy (oracle 3) (subStage3 oracle inp)

/-- State after the fifth subscription stage. -/
def subStage5 (oracle : ℕ → Option (List Char)) (inp : SpecInput) : SubState :=
  create_subscription_script (oracle 4) (subStage4 oracle inp)

/-- State after the sixth subscription stage. -/
def subStage6 (oracle : ℕ → Option (List Char)) (inp : SpecInput) : SubState :=
  calculate_subscription_savings (oracle 5) (subStage5 oracle inp)

/-- State after the first telecom stage of a specialist invocation. -/
def telStage1 (oracle : ℕ → Option (List Char)) (inp : SpecInput) : TelState :=
  identify_telecom_services (oracle 0) (mkTelState inp)

/-- State after the second telecom stage. -/
def telStage2 (oracle : ℕ → Option (List Char)) (inp : SpecInput) : TelState :=
  analyse_usage_and_needs (oracle 1) (telStage1 oracle inp)

/-- State after the third telecom stage. -/
def telStage3 (oracle : ℕ → Option (List Char)) (inp : SpecInput) : TelState :=
  research_competitor_offers (oracle 2) (telStage2 oracle inp)

/-- State after the fourth telecom stage. -/
def telStage4 (oracle : ℕ → Option (List Char)) (inp : SpecInput) : TelState :=
  generate_telecom_strategy (oracle 3) (telStage3 oracle inp)

/-- State after the fifth telecom stage. -/
def telStage5 (oracle : ℕ → Option (List Char)) (inp : SpecInput) : TelState :=
  create_telecom_script (oracle 4) (telStage4 oracle inp)

/-- State after the sixth telecom stage. -/
def telStage6 (oracle : ℕ → Option (List Char)) (inp : SpecInput) : TelState :=
  calculate_telecom_savings (oracle 5) (telStage5 oracle inp)

/-- Every value carried by the optional confidence lies in `[lo, hi]`. -/
def ConfWithin (o : Option ℚ) (lo hi : ℚ) : Prop :=
  ∀ c, o = some c → lo ≤ c ∧ c ≤ hi

/-- Once a confidence is established it persists and never decreases. -/
def ConfNondecreasing (before after : Option ℚ) : Prop :=
  ∀ c, before = some c → ∃ c2, after = some c2 ∧ c ≤ c2

/-- The claim-side arithmetic of one recurring-bill savings scenario computed
from `amount` and scenario percentage `p`: monthly savings, annual savings
(twelve months), and the percentage, all rounded as in the source. -/
def ScenarioMatches (amount p : ℚ) (x : ScenarioOutcome) : Prop :=
  x.monthly_savings = pyRound (amount * p) 2 ∧
  x.annual_savings = pyRound (amount * p * 12) 2 ∧
  x.percentage = pyRound (p * 100) 1

/-- Cross-field consistency of one medical savings scenario: the stored
savings amount is `amount` times the stored percentage, and the stored final
amount is `amount` minus the savings, both rounded to 2 decimals. -/
def MedOutcomeConsistent (amount : ℚ) (x : MedOutcome) : Prop :=
  x.savings_amount = pyRound (amount * (x.percentage / 100)) 2 ∧
  x.final_amount = pyRound (amount - amount * (x.percentage / 100)) 2

/-- C4 property at the medical savings stage: the stage ignores its LLM slot
and every computed scenario satisfies the claimed arithmetic. -/
def MedicalSavingsArithmetic (o : Option (List Char)) (s : MedState) : Prop :=
  calculate_medical_savings o s = calculate_medical_savings none s ∧
  ∀ tbl, (calculate_medical_savings o s).savings_potential = some tbl →
    MedOutcomeConsistent s.amount tbl.conservative ∧
    MedOutcomeConsistent s.amount tbl.moderate ∧
    MedOutcomeConsistent s.amount tbl.aggressive

/-- C4 property at the subscription savings stage. -/
def SubscriptionSavingsArithmetic (o : Option (List Char)) (s : SubState) : Prop :=
  calculate_subscription_savings o s = calculate_subscription_savings none s ∧
  ∀ tbl, (calculate_subscription_savings o s).savings_potential = some tbl →
    ScenarioMatches s.amount
      (((s.type_info.map SubTypeInfo.typical_savings).getD (25/100)) * (6/10))
      tbl.conservative ∧
    ScenarioMatches s.amount
      ((s.type_info.map SubTypeInfo.typical_savings).getD (25/100)) tbl.moderate ∧
    ScenarioMatches s.amount
      (((s.type_info.map SubTypeInfo.typical_savings).getD (25/100)) * (14/10))
      tbl.aggressive

/-- C4 property at the telecom savings stage. -/
def TelecomSavingsArithmetic (o : Option (List Char)) (s : TelState) : Prop :=
  calculate_telecom_savings o s = calculate_telecom_savings none s ∧
  ∀ tbl, (calculate_telecom_savings o s).savings_potential = some tbl →
    ScenarioMatches s.amount
      (((s.type_info.map TelTypeInfo.typical_savings).getD (25/100)) * (7/10))
      tbl.conservative ∧
    ScenarioMatches s.amount
      ((s.type_info.map TelTypeInfo.typical_savings).getD (25/100)) tbl.moderate ∧
    ScenarioMatches s.amount
      (((s.type_info.map TelTypeInfo.typical_savings).getD (25/100)) * (13/10))
      tbl.aggressive

/-- Sample specialist input (the utility smoke test of the source). -/
def sampleSpecInput : SpecInput :=
  { bill_type := str "UTILITY", ocr_text := str "ELECTRIC BILL",
    company := str "City Power", amount := 12458/100, conversation_history := [] }

/-- Sample medical state (the medical smoke test of the source). -/
def medSampleState : MedState :=
  mkMedState
    { bill_type := str "MEDICAL", ocr_text := str "HOSPITAL BILL",
      company := str "City Medical Center", amount := 2450, conversation_history := [] }

/-- Sample subscription state (the subscription smoke test of the source). -/
def subSampleState : SubState :=
  mkSubState
    { bill_type := str "SUBSCRIPTION", ocr_text := str "NETFLIX PREMIUM",
      company := str "Netflix", amount := 1999/100, conversation_history := [] }

/-- Sample telecom state (the telecom smoke test of the source). -/
def telSampleState : TelState :=
  mkTelState
    { bill_type := str "TELECOM", ocr_text := str "VERIZON WIRELESS",
      company := str "Verizon Wireless", amount := 85, conversation_history := [] }

/-- Telecom input reaching confidence above `0.8` with a sub-type of
negotiation potential exactly `0.8`. -/
def telCounterInput : SpecInput :=
  { bill_type := str "TELECOM", ocr_text := str "VERIZON WIRELESS",
    company := str "Verizon", amount := 100, conversation_history := [] }

/-- Oracle for the telecom run above: the identification stage sees `mobile`,
the strategy stage sees all five bonus keywords, every other call fails. -/
def telCounterOracle : ℕ → Option (List Char) :=
  fun i =>
    if i = 0 then some (str "mobile")
    else if i = 3 then some (str "competitor retention promotional usage cancel")
    else none

/-- Sample bill data with non-empty OCR text. -/
def sampleBillData : BillData :=
  { text := str "ELECTRIC BILL", company := none, amount := none, bill_type := none }

/-- A specialist result dict carrying no `confidence_score` key. -/
def emptySpecView : SpecView := ⟨none, none, none, none, none, none⟩

/-- Sample initial orchestrator state. -/
def sampleNegotiationState : NegotiationState :=
  initialNegotiationState sampleBillData (str "test_user")

/-- C1: `evaluate_confidence` is a pure total function selecting exactly one
of the three execution modes by the fixed thresholds `0.8` and `0.5`:
`score >= 0.8` yields `auto_execute`, `0.5 <= score < 0.8` yields
`supervised`, `score < 0.5` yields `human_handoff`; in particular a score of
exactly `0.8` yields `auto_execute` and exactly `0.5` yields `supervised`. -/
theorem evaluate_confidence_threshold_policy :
    (∀ confidence : ℚ,
      evaluate_confidence confidence ∈
        [str "auto_execute", str "supervised", str "human_handoff"] ∧
      (evaluate_confidence confidence = str "auto_execute" ↔ 8/10 ≤ confidence) ∧
      (evaluate_confidence confidence = str "supervised" ↔
        5/10 ≤ confidence ∧ confidence < 8/10) ∧
      (evaluate_confidence confidence = str "human_handoff" ↔ confidence < 5/10)) ∧
    evaluate_confidence (8/10) = str "auto_execute" ∧
    evaluate_confidence (5/10) = str "supervised" := by
  have hne1 : str "auto_execute" ≠ str "supervised" := by decide
  have hne2 : str "auto_execute" ≠ str "human_handoff" := by decide
  have hne3 : str "supervised" ≠ str "human_handoff" := by decide
  refine ⟨fun c => ?_, ?_, ?_⟩
  · unfold evaluate_confidence CONFIDENCE_THRESHOLD_AUTO CONFIDENCE_THRESHOLD_SUPERVISED
    by_cases h1 : (8 : ℚ)/10 ≤ c
    · rw [if_pos h1]
      exact ⟨by decide, ⟨fun _ => h1, fun _ => rfl⟩,
        ⟨fun h => absurd h hne1, fun h => absurd h1 (not_le.mpr h.2)⟩,
        ⟨fun h => absurd h hne2,
         fun h => absurd h1 (not_le.mpr (lt_of_lt_of_le h (by norm_num)))⟩⟩
    · rw [if_neg h1]
      by_cases h2 : (5 : ℚ)/10 ≤ c
      · rw [if_pos h2]
        exact ⟨by decide, ⟨fun h => absurd h (Ne.symm hne1), fun h => absurd h h1⟩,
          ⟨fun _ => ⟨h2, not_le.mp h1⟩, fun _ => rfl⟩,
          ⟨fun h => absurd h hne3, fun h => absurd h2 (not_le.mpr h)⟩⟩
      · rw [if_neg h2]
        exact ⟨by decide, ⟨fun h => absurd h (Ne.symm hne2), fun h => absurd h h1⟩,
          ⟨fun h => absurd h (Ne.symm hne3), fun h => absurd h.1 h2⟩,
          ⟨fun _ => not_le.mp h2, fun _ => rfl⟩⟩
  · unfold evaluate_confidence CONFIDENCE_THRESHOLD_AUTO
    rw [if_pos (le_refl _)]
  · unfold evaluate_confidence CONFIDENCE_THRESHOLD_AUTO CONFIDENCE_THRESHOLD_SUPERVISED
    rw [if_neg (by norm_num), if_pos (le_refl _)]

/-- C2: the router's classify stage upper-cases and trims the LLM response;
any result outside the four valid categories (and any LLM exception) yields
`UTILITY`, and the stage always returns normally with a valid category. -/
theorem route_bill_classification_policy :
    (∀ (content : List Char) (state : BillState),
      (route_bill (some content) state).bill_type ∈ valid_types ∧
      (upperChars (trimChars content) ∉ valid_types →
        (route_bill (some content) state).bill_type = str "UTILITY") ∧
      (upperChars (trimChars content) ∈ valid_types →
        (route_bill (some content) state).bill_type = upperChars (trimChars content))) ∧
    (∀ state : BillState, route_bill none state = { state with bill_type := str "UTILITY" }) := by
  refine ⟨fun content state => ?_, fun state => rfl⟩
  simp only [route_bill]
  split_ifs with h
  · exact ⟨h, fun hn => absurd h hn, fun _ => rfl⟩
  · refine ⟨?_, fun _ => rfl, fun hm => absurd hm h⟩
    show str "UTILITY" ∈ valid_types
    decide

/-- C2 witness: a non-category response (after trimming and upper-casing)
is replaced by `UTILITY`. -/
theorem route_bill_classification_policy_witness :
    (route_bill (some (str "  netflix premium ")) (initialBillState (str "BILL"))).bill_type =
      str "UTILITY" :=
  (route_bill_classification_policy.1 (str "  netflix premium ")
    (initialBillState (str "BILL"))).2.1 (by decide)

/-- C9 counterexample: the final stage of the utility workflow is
`generate_negotiation_plan`, whose output depends on the outcome of its LLM
call, so it is not an LLM-free savings-calculation stage. -/
theorem utility_final_stage_depends_on_llm :
    utilityGraph.nodes.getLast? = some ("generate_plan", generate_negotiation_plan) ∧
    (generate_negotiation_plan (some (str "plan text"))
        (mkUtilState sampleSpecInput)).negotiation_strategy = some (str "plan text") ∧
    (generate_negotiation_plan none
        (mkUtilState sampleSpecInput)).negotiation_strategy =
      some (str "Unable to generate strategy") ∧
    generate_negotiation_plan (some (str "plan text")) (mkUtilState sampleSpecInput) ≠
      generate_negotiation_plan none (mkUtilState sampleSpecInput) := by
  refine ⟨rfl, rfl, rfl, fun h => ?_⟩
  have h2 := congrArg UtilState.negotiation_strategy h
  exact absurd h2 (by decide)

/-- C9 amended: all four specialist workflows are strictly sequential linear
chains; the Medical, Subscription and Telecom workflows end in a
savings-calculation stage whose output is independent of its LLM slot (pure
arithmetic), while the Utility workflow ends in the LLM-calling plan stage
`generate_negotiation_plan` instead. -/
theorem specialist_workflow_shape :
    IsLinearChain utilityGraph ∧ IsLinearChain medicalGraph ∧
    IsLinearChain subscriptionGraph ∧ IsLinearChain telecomGraph ∧
    medicalGraph.nodes.getLast? = some ("calculate_savings", calculate_medical_savings) ∧
    subscriptionGraph.nodes.getLast? =
      some ("calculate_savings", calculate_subscription_savings) ∧
    telecomGraph.nodes.getLast? = some ("calculate_savings", calculate_telecom_savings) ∧
    (∀ (o : Option (List Char)) (s : MedState),
      calculate_medical_savings o s = calculate_medical_savings none s) ∧
    (∀ (o : Option (List Char)) (s : SubState),
      calculate_subscription_savings o s = calculate_subscription_savings none s) ∧
    (∀ (o : Option (List Char)) (s : TelState),
      calculate_telecom_savings o s = calculate_telecom_savings none s) ∧
    utilityGraph.nodes.getLast? = some ("generate_plan", generate_negotiation_plan) :=
  ⟨⟨rfl, rfl⟩, ⟨rfl, rfl⟩, ⟨rfl, rfl⟩, ⟨rfl, rfl⟩, rfl, rfl, rfl,
   fun _ _ => rfl, fun _ _ => rfl, fun _ _ => rfl, rfl⟩

/-- C10: when the specialist invocation succeeds but its result carries no
`confidence_score` key, the orchestrator records confidence `0.5`, which the
threshold policy sends to `supervised` rather than `human_handoff`. -/
theorem missing_confidence_defaults_to_supervised :
    ∀ (result : SpecView) (state : NegotiationState),
      result.confidence_score = none →
      (apply_specialist_result result state).confidence_score = 5/10 ∧
      evaluate_confidence (apply_specialist_result result state).confidence_score =
        str "supervised" := by
  intro result state h
  have hc : (apply_specialist_result result state).confidence_score = 5/10 := by
    simp [apply_specialist_result, h]
  refine ⟨hc, ?_⟩
  rw [hc]
  unfold evaluate_confidence CONFIDENCE_THRESHOLD_AUTO CONFIDENCE_THRESHOLD_SUPERVISED
  rw [if_neg (by norm_num), if_pos (le_refl _)]

/-- C10 witness: a concrete result without a confidence key is dispatched to
supervised mode. -/
theorem missing_confidence_defaults_to_supervised_witness :
    (apply_specialist_result emptySpecView sampleNegotiationState).confidence_score = 5/10 ∧
    evaluate_confidence
        (apply_specialist_result emptySpecView sampleNegotiationState).confidence_score =
      str "supervised" :=
  missing_confidence_defaults_to_supervised emptySpecView sampleNegotiationState rfl

/-- C7: every stage function is total on states (it never raises past the
graph boundary), and whenever its LLM call fails it writes its sentinel text
into its output field, optionally sets a lowered confidence score, and
returns the state otherwise unchanged — shown here as an exact equation for
the failure behaviour of each LLM-calling stage of the router and of the four
specialists. -/
theorem stage_llm_failure_sentinels :
    (∀ s : BillState, route_bill none s = { s with bill_type := str "UTILITY" }) ∧
    (∀ s : BillState,
      extract_bill_details none s = { s with company := str "Unknown", amount := 0 }) ∧
    (∀ s : UtilState,
      analyse_usage_history none s =
        { s with usage_analysis := some (str "Analysis unavailable"),
                 confidence_score := some ((3 : ℚ)/10) }) ∧
    (∀ s : UtilState,
      research_competitors none s =
        { s with competitor_research := some (str "Research unavailable") }) ∧
    (∀ s : UtilState,
      generate_negotiation_plan none s =
        { s with negotiation_strategy := some (str "Unable to generate strategy"),
                 target_savings := some 0 }) ∧
    (∀ s : MedState,
      check_billing_errors none s =
        { s with error_analysis := some (str "Analysis unavailable") }) ∧
    (∀ s : MedState,
      assess_financial_hardship none s =
        { s with
            financial_assistance := some (str "Financial assistance assessment unavailable") }) ∧
    (∀ s : MedState,
      generate_medical_strategy none s =
        { s with negotiation_strategy := some (str "Strategy generation failed"),
                 confidence_score := some ((3 : ℚ)/10) }) ∧
    (∀ s : MedState,
      create_medical_script none s =
        { s with script := some (str "Script generation failed") }) ∧
    (∀ s : SubState,
      identify_subscription_type none s =
        { s with subscription_analysis := some (str "Analysis unavailable"),
                 subscription_type := some (str "other"),
                 type_info := some streamingInfo }) ∧
    (∀ s : SubState,
      analyse_usage_patterns none s =
        { s with usage_analysis := some (str "Usage analysis unavailable") }) ∧
    (∀ s : SubState,
      research_alternatives none s =
        { s with alternatives_research := some (str "Alternatives research unavailable") }) ∧
    (∀ s : SubState,
      generate_subscription_strategy none s =
        { s with negotiation_strategy := some (str "Strategy generation failed"),
                 confidence_score := some ((4 : ℚ)/10) }) ∧
    (∀ s : SubState,
      create_subscription_script none s =
        { s with script := some (str "Script generation failed") }) ∧
    (∀ s : TelState,
      identify_telecom_services none s =
        { s with service_analysis := some (str "Analysis unavailable"),
                 telecom_type := some (str "bundle"),
                 type_info := some bundleInfo }) ∧
    (∀ s : TelState,
      analyse_usage_and_needs none s =
        { s with usage_analysis := some (str "Usage analysis unavailable") }) ∧
    (∀ s : TelState,
      research_competitor_offers none s =
        { s with competitor_research := some (str "Competitor research unavailable") }) ∧
    (∀ s : TelState,
      generate_telecom_strategy none s =
        { s with negotiation_strategy := some (str "Strategy generation failed"),
                 confidence_score := some ((5 : ℚ)/10) }) ∧
    (∀ s : TelState,
      create_telecom_script none s =
        { s with script := some (str "Script generation failed") }) :=
  ⟨fun _ => rfl, fun _ => rfl, fun _ => rfl, fun _ => rfl, fun _ => rfl, fun _ => rfl,
   fun _ => rfl, fun _ => rfl, fun _ => rfl, fun _ => rfl, fun _ => rfl, fun _ => rfl,
   fun _ => rfl, fun _ => rfl, fun _ => rfl, fun _ => rfl, fun _ => rfl, fun _ => rfl,
   fun _ => rfl⟩

/-- The keyword count is at most the vocabulary length. -/
theorem countTrue_le_length (l : List Bool) : countTrue l ≤ l.length :=
  List.length_filter_le _ _

/-- The utility analysis stage always establishes a confidence in
`[0.25, 0.9]`. -/
theorem analyse_usage_history_conf (o : Option (List Char)) (s : UtilState) :
    ∃ c, (analyse_usage_history o s).confidence_score = some c ∧
      1/4 ≤ c ∧ c ≤ 9/10 := by
  cases o with
  | none => exact ⟨3/10, rfl, by norm_num, by norm_num⟩
  | some content =>
    refine ⟨_, rfl, le_min ?_ (by norm_num), min_le_right _ _⟩
    have h0 : (0 : ℚ) ≤ (countTrue
        [charsContain (lowerChars content) (str "loyal"),
         charsContain (lowerChars content) (str "savings"),
         charsContain (lowerChars content) (str "competitor"),
         charsContain (lowerChars content) (str "discount"),
         charsContain (lowerChars content) (str "programme")] : ℚ) * (15/100) := by
      positivity
    linarith

/-- The utility competitor-research stage never decreases an established
confidence and keeps it at most `0.95`. -/
theorem research_competitors_conf (o : Option (List Char)) (s : UtilState) (c : ℚ)
    (hc : s.confidence_score = some c) (hhi : c ≤ 19/20) :
    ∃ c2, (research_competitors o s).confidence_score = some c2 ∧ c ≤ c2 ∧ c2 ≤ 19/20 := by
  cases o with
  | none =>
    refine ⟨c, ?_, le_refl c, hhi⟩
    simpa [research_competitors] using hc
  | some content =>
    refine ⟨_, rfl, ?_, min_le_right _ _⟩
    rw [hc]
    have h0 : (0 : ℚ) ≤ (countTrue
        [charsContain (lowerChars content) (str "match"),
         charsContain (lowerChars content) (str "beat"),
         charsContain (lowerChars content) (str "discount"),
         charsContain (lowerChars content) (str "offer"),
         charsContain (lowerChars content) (str "promotion")] : ℚ) * (3/100) := by
      positivity
    refine le_min ?_ hhi
    simp only [Option.getD_some]
    linarith

/-- The utility plan stage leaves the confidence untouched. -/
theorem generate_negotiation_plan_conf (o : Option (List Char)) (s : UtilState) :
    (generate_negotiation_plan o s).confidence_score = s.confidence_score := by
  cases o <;> rfl

/-- The medical error-check stage leaves the confidence untouched. -/
theorem check_billing_errors_conf (o : Option (List Char)) (s : MedState) :
    (check_billing_errors o s).confidence_score = s.confidence_score := by
  cases o <;> rfl

/-- The medical hardship stage leaves the confidence untouched. -/
theorem assess_financial_hardship_conf (o : Option (List Char)) (s : MedState) :
    (assess_financial_hardship o s).confidence_score = s.confidence_score := by
  cases o <;> rfl

/-- The medical strategy stage always establishes a confidence in
`[0.3, 0.9]`. -/
theorem generate_medical_strategy_conf (o : Option (List Char)) (s : MedState) :
    ∃ c, (generate_medical_strategy o s).confidence_score = some c ∧
      3/10 ≤ c ∧ c ≤ 9/10 := by
  cases o with
  | none => exact ⟨3/10, rfl, le_refl _, by norm_num⟩
  | some content =>
    refine ⟨_, rfl, le_min ?_ (by norm_num), min_le_right _ _⟩
    have h1 : (0 : ℚ) ≤ if s.has_errors then (2 : ℚ)/10 else 0 := by
      split_ifs <;> norm_num
    have h2 : (0 : ℚ) ≤ if 1000 < s.amount then (1 : ℚ)/10 else 0 := by
      split_ifs <;> norm_num
    have h3 : (0 : ℚ) ≤
        if charsContain (lowerChars content) (str "charity") then (1 : ℚ)/10 else 0 := by
      split_ifs <;> norm_num
    have h4 : (0 : ℚ) ≤
        if charsContain (lowerChars content) (str "uninsured") then (1 : ℚ)/10 else 0 := by
      split_ifs <;> norm_num
    linarith

/-- The medical script stage leaves the confidence untouched. -/
theorem create_medical_script_conf (o : Option (List Char)) (s : MedState) :
    (create_medical_script o s).confidence_score = s.confidence_score := by
  cases o <;> rfl

/-- The medical savings stage leaves the confidence untouched. -/
theorem calculate_medical_savings_conf (o : Option (List Char)) (s : MedState) :
    (calculate_medical_savings o s).confidence_score = s.confidence_score := rfl

/-- Every subscription sub-type metadata entry (and the fallback) carries a
negotiation potential in `[0.6, 0.9]`. -/
theorem subscriptionInfoFor_pot (d : List Char) :
    3/5 ≤ (subscriptionInfoFor d).negotiation_potential ∧
      (subscriptionInfoFor d).negotiation_potential ≤ 9/10 := by
  unfold subscriptionInfoFor
  split_ifs <;>
    constructor <;>
      norm_num [streamingInfo, softwareInfo, fitnessInfo, newsInfo, cloudInfo]

/-- The subscription identification stage always stores sub-type metadata
with negotiation potential in `[0.6, 0.9]`. -/
theorem identify_subscription_type_info (o : Option (List Char)) (s : SubState) :
    ∃ ti, (identify_subscription_type o s).type_info = some ti ∧
      3/5 ≤ ti.negotiation_potential ∧ ti.negotiation_potential ≤ 9/10 := by
  cases o with
  | none => exact ⟨streamingInfo, rfl, by norm_num [streamingInfo], by norm_num [streamingInfo]⟩
  | some content =>
    exact ⟨_, rfl, (subscriptionInfoFor_pot _).1, (subscriptionInfoFor_pot _).2⟩

/-- The subscription identification stage leaves the confidence untouched. -/
theorem identify_subscription_type_conf (o : Option (List Char)) (s : SubState) :
    (identify_subscription_type o s).confidence_score = s.confidence_score := by
  cases o <;> rfl

/-- The subscription usage stage changes neither confidence nor metadata. -/
theorem analyse_usage_patterns_inv (o : Option (List Char)) (s : SubState) :
    (analyse_usage_patterns o s).confidence_score = s.confidence_score ∧
      (analyse_usage_patterns o s).type_info = s.type_info := by
  cases o <;> exact ⟨rfl, rfl⟩

/-- The subscription alternatives stage changes neither confidence nor
metadata. -/
theorem research_alternatives_inv (o : Option (List Char)) (s : SubState) :
    (research_alternatives o s).confidence_score = s.confidence_score ∧
      (research_alternatives o s).type_info = s.type_info := by
  cases o <;> exact ⟨rfl, rfl⟩

/-- The subscription strategy stage establishes a confidence in `[0.4, 0.9]`
whenever the stored sub-type metadata has potential in `[0.6, 0.9]`. -/
theorem generate_subscription_strategy_conf (o : Option (List Char)) (s : SubState)
    (ti : SubTypeInfo) (hti : s.type_info = some ti)
    (hlo : 3/5 ≤ ti.negotiation_potential) (_hhi : ti.negotiation_potential ≤ 9/10) :
    ∃ c, (generate_subscription_strategy o s).confidence_score = some c ∧
      2/5 ≤ c ∧ c ≤ 9/10 := by
  cases o with
  | none => exact ⟨4/10, rfl, by norm_num, by norm_num⟩
  | some content =>
    have hpot : (s.type_info.map SubTypeInfo.negotiation_potential).getD (6/10) =
        ti.negotiation_potential := by rw [hti]; rfl
    refine ⟨_, rfl, ?_, min_le_right _ _⟩
    rw [hpot]
    refine le_min ?_ (by norm_num)
    have h0 : (0 : ℚ) ≤ (countTrue
        [charsContain (lowerChars content) (str "competitor"),
         charsContain (lowerChars content) (str "discount"),
         charsContain (lowerChars content) (str "cancel"),
         charsContain (lowerChars content) (str "alternative"),
         charsContain (lowerChars content) (str "loyalty")] : ℚ) * (5/100) := by
      positivity
    have hb : (3 : ℚ)/5 * (7/10) ≤ ti.negotiation_potential * (7/10) :=
      mul_le_mul_of_nonneg_right hlo (by norm_num)
    linarith

/-- The subscription script stage leaves the confidence untouched. -/
theorem create_subscription_script_conf (o : Option (List Char)) (s : SubState) :
    (create_subscription_script o s).confidence_score = s.confidence_score := by
  cases o <;> rfl

/-- The subscription savings stage leaves the confidence untouched. -/
theorem calculate_subscription_savings_conf (o : Option (List Char)) (s : SubState) :
    (calculate_subscription_savings o s).confidence_score = s.confidence_score := rfl

/-- Every telecom service-type metadata entry (and the fallback) carries a
negotiation potential in `[0.7, 0.9]`. -/
theorem telecomInfoFor_pot (d : List Char) :
    7/10 ≤ (telecomInfoFor d).negotiation_potential ∧
      (telecomInfoFor d).negotiation_potential ≤ 9/10 := by
  unfold telecomInfoFor
  split_ifs <;>
    constructor <;>
      norm_num [mobileInfo, internetInfo, cableInfo, landlineInfo, bundleInfo]

/-- The telecom identification stage always stores service-type metadata with
negotiation potential in `[0.7, 0.9]`. -/
theorem identify_telecom_services_info (o : Option (List Char)) (s : TelState) :
    ∃ ti, (identify_telecom_services o s).type_info = some ti ∧
      7/10 ≤ ti.negotiation_potential ∧ ti.negotiation_potential ≤ 9/10 := by
  cases o with
  | none => exact ⟨bundleInfo, rfl, by norm_num [bundleInfo], by norm_num [bundleInfo]⟩
  | some content => exact ⟨_, rfl, (telecomInfoFor_pot _).1, (telecomInfoFor_pot _).2⟩

/-- The telecom identification stage leaves the confidence untouched. -/
theorem identify_telecom_services_conf (o : Option (List Char)) (s : TelState) :
    (identify_telecom_services o s).confidence_score = s.confidence_score := by
  cases o <;> rfl

/-- The telecom usage stage changes neither confidence nor metadata. -/
theorem analyse_usage_and_needs_inv (o : Option (List Char)) (s : TelState) :
    (analyse_usage_and_needs o s).confidence_score = s.confidence_score ∧
      (analyse_usage_and_needs o s).type_info = s.type_info := by
  cases o <;> exact ⟨rfl, rfl⟩

/-- The telecom competitor stage changes neither confidence nor metadata. -/
theorem research_competitor_offers_inv (o : Option (List Char)) (s : TelState) :
    (research_competitor_offers o s).confidence_score = s.confidence_score ∧
      (research_competitor_offers o s).type_info = s.type_info := by
  cases o <;> exact ⟨rfl, rfl⟩

/-- The telecom strategy stage establishes a confidence in `[0.5, 0.95]`
whenever the stored service-type metadata has potential in `[0.7, 0.9]`. -/
theorem generate_telecom_strategy_conf (o : Option (List Char)) (s : TelState)
    (ti : TelTypeInfo) (hti : s.type_info = some ti)
    (hlo : 7/10 ≤ ti.negotiation_potential) (_hhi : ti.negotiation_potential ≤ 9/10) :
    ∃ c, (generate_telecom_strategy o s).confidence_score = some c ∧
      1/2 ≤ c ∧ c ≤ 19/20 := by
  cases o with
  | none => exact ⟨5/10, rfl, by norm_num, by norm_num⟩
  | some content =>
    have hpot : (s.type_info.map TelTypeInfo.negotiation_potential).getD (8/10) =
        ti.negotiation_potential := by rw [hti]; rfl
    refine ⟨_, rfl, ?_, min_le_right _ _⟩
    rw [hpot]
    refine le_min ?_ (by norm_num)
    have h0 : (0 : ℚ) ≤ (countTrue
        [charsContain (lowerChars content) (str "competitor"),
         charsContain (lowerChars content) (str "retention"),
         charsContain (lowerChars content) (str "promotional"),
         charsContain (lowerChars content) (str "usage"),
         charsContain (lowerChars content) (str "cancel")] : ℚ) * (4/100) := by
      positivity
    have hb : (7 : ℚ)/10 * (8/10) ≤ ti.negotiation_potential * (8/10) :=
      mul_le_mul_of_nonneg_right hlo (by norm_num)
    linarith

/-- The telecom script stage leaves the confidence untouched. -/
theorem create_telecom_script_conf (o : Option (List Char)) (s : TelState) :
    (create_telecom_script o s).confidence_score = s.confidence_score := by
  cases o <;> rfl

/-- The telecom savings stage leaves the confidence untouched. -/
theorem calculate_telecom_savings_conf (o : Option (List Char)) (s : TelState) :
    (calculate_telecom_savings o s).confidence_score = s.confidence_score := rfl

/-- A present confidence with known bounds satisfies `ConfWithin`. -/
theorem confWithin_of_some {o : Option ℚ} {c lo hi : ℚ}
    (h : o = some c) (h1 : lo ≤ c) (h2 : c ≤ hi) : ConfWithin o lo hi := by
  intro c2 hc2
  rw [h] at hc2
  obtain rfl : c = c2 := Option.some.inj hc2
  exact ⟨h1, h2⟩

/-- An absent confidence vacuously satisfies `ConfWithin`. -/
theorem confWithin_none {o : Option ℚ} {lo hi : ℚ} (h : o = none) :
    ConfWithin o lo hi := by
  intro c hc
  rw [h] at hc
  exact Option.noConfusion hc

/-- Nothing is established yet, so nothing can decrease. -/
theorem confNondecreasing_none {a b : Option ℚ} (h : a = none) :
    ConfNondecreasing a b := by
  intro c hc
  rw [h] at hc
  exact Option.noConfusion hc

/-- A concrete non-decreasing pair of present confidences. -/
theorem confNondecreasing_of {a b : Option ℚ} {c1 c2 : ℚ}
    (ha : a = some c1) (hb : b = some c2) (hle : c1 ≤ c2) : ConfNondecreasing a b := by
  intro c hc
  rw [ha] at hc
  obtain rfl : c1 = c := Option.some.inj hc
  exact ⟨c2, hb, hle⟩

/-- C3: on every specialist graph run (from the orchestrator-prepared input
state) and for every sequence of LLM outcomes, the confidence score after
each stage lies in `[0, 0.95]`, never decreases once established, and the
final confidence respects the agent ceiling (`0.9` for the medical and
subscription agents, `0.95` for the utility and telecom agents). -/
theorem specialist_confidence_invariant :
    ∀ (inp : SpecInput) (oracle : ℕ → Option (List Char)),
      (utilStage3 oracle inp = runUtility oracle (mkUtilState inp) ∧
       ConfWithin (utilStage1 oracle inp).confidence_score 0 (19/20) ∧
       ConfWithin (utilStage2 oracle inp).confidence_score 0 (19/20) ∧
       ConfWithin (utilStage3 oracle inp).confidence_score 0 (19/20) ∧
       ConfNondecreasing (utilStage1 oracle inp).confidence_score
         (utilStage2 oracle inp).confidence_score ∧
       ConfNondecreasing (utilStage2 oracle inp).confidence_score
         (utilStage3 oracle inp).confidence_score) ∧
      (medStage5 oracle inp = runMedical oracle (mkMedState inp) ∧
       ConfWithin (medStage1 oracle inp).confidence_score 0 (19/20) ∧
       ConfWithin (medStage2 oracle inp).confidence_score 0 (19/20) ∧
       ConfWithin (medStage3 oracle inp).confidence_score 0 (19/20) ∧
       ConfWithin (medStage4 oracle inp).confidence_score 0 (19/20) ∧
       ConfWithin (medStage5 oracle inp).confidence_score 0 (19/20) ∧
       ConfNondecreasing (medStage1 oracle inp).confidence_score
         (medStage2 oracle inp).confidence_score ∧
       ConfNondecreasing (medStage2 oracle inp).confidence_score
         (medStage3 oracle inp).confidence_score ∧
       ConfNondecreasing (medStage3 oracle inp).confidence_score
         (medStage4 oracle inp).confidence_score ∧
       ConfNondecreasing (medStage4 oracle inp).confidence_score
         (medStage5 oracle inp).confidence_score ∧
       ConfWithin (medStage5 oracle inp).confidence_score 0 (9/10)) ∧
      (subStage6 oracle inp = runSubscription oracle (mkSubState inp) ∧
       ConfWithin (subStage1 oracle inp).confidence_score 0 (19/20) ∧
       ConfWithin (subStage2 oracle inp).confidence_score 0 (19/20) ∧
       ConfWithin (subStage3 oracle inp).confidence_score 0 (19/20) ∧
       ConfWithin (subStage4 oracle inp).confidence_score 0 (19/20) ∧
       ConfWithin (subStage5 oracle inp).confidence_score 0 (19/20) ∧
       ConfWithin (subStage6 oracle inp).confidence_score 0 (19/20) ∧
       ConfNondecreasing (subStage1 oracle inp).confidence_score
         (subStage2 oracle inp).confidence_score ∧
       ConfNondecreasing (subStage2 oracle inp).confidence_score
         (subStage3 oracle inp).confidence_score ∧
       ConfNondecreasing (subStage3 oracle inp).confidence_score
         (subStage4 oracle inp).confidence_score ∧
       ConfNondecreasing (subStage4 oracle inp).confidence_score
         (subStage5 oracle inp).confidence_score ∧
       ConfNondecreasing (subStage5 oracle inp).confidence_score
         (subStage6 oracle inp).confidence_score ∧
       ConfWithin (subStage6 oracle inp).confidence_score 0 (9/10)) ∧
      (telStage6 oracle inp = runTelecom oracle (mkTelState inp) ∧
       ConfWithin (telStage1 oracle inp).confidence_score 0 (19/20) ∧
       ConfWithin (telStage2 oracle inp).confidence_score 0 (19/20) ∧
       ConfWithin (telStage3 oracle inp).confidence_score 0 (19/20) ∧
       ConfWithin (telStage4 oracle inp).confidence_score 0 (19/20) ∧
       ConfWithin (telStage5 oracle inp).confidence_score 0 (19/20) ∧
       ConfWithin (telStage6 oracle inp).confidence_score 0 (19/20) ∧
       ConfNondecreasing (telStage1 oracle inp).confidence_score
         (telStage2 oracle inp).confidence_score ∧
       ConfNondecreasing (telStage2 oracle inp).confidence_score
         (telStage3 oracle inp).confidence_score ∧
       ConfNondecreasing (telStage3 oracle inp).confidence_score
         (telStage4 oracle inp).confidence_score ∧
       ConfNondecreasing (telStage4 oracle inp).confidence_score
         (telStage5 oracle inp).confidence_score ∧
       ConfNondecreasing (telStage5 oracle inp).confidence_score
         (telStage6 oracle inp).confidence_score ∧
       ConfWithin (telStage6 oracle inp).confidence_score 0 (19/20)) := by
  intro inp oracle
  refine ⟨?_, ?_, ?_, ?_⟩
  · -- utility agent
    obtain ⟨c1, hc1, hlo1, hhi1⟩ := analyse_usage_history_conf (oracle 0) (mkUtilState inp)
    have hc1' : (utilStage1 oracle inp).confidence_score = some c1 := hc1
    obtain ⟨c2, hc2, hm2, hhi2⟩ :=
      research_competitors_conf (oracle 1) (utilStage1 oracle inp) c1 hc1'
        (le_trans hhi1 (by norm_num))
    have hc2' : (utilStage2 oracle inp).confidence_score = some c2 := hc2
    have hc3' : (utilStage3 oracle inp).confidence_score = some c2 := by
      simp only [utilStage3]
      rw [generate_negotiation_plan_conf]
      exact hc2'
    refine ⟨rfl, ?_, ?_, ?_, ?_, ?_⟩
    · exact confWithin_of_some hc1' (by linarith) (by linarith)
    · exact confWithin_of_some hc2' (by linarith) hhi2
    · exact confWithin_of_some hc3' (by linarith) hhi2
    · exact confNondecreasing_of hc1' hc2' hm2
    · exact confNondecreasing_of hc2' hc3' (le_refl c2)
  · -- medical agent
    have h1 : (medStage1 oracle inp).confidence_score = none := by
      simp only [medStage1]
      rw [check_billing_errors_conf]
      rfl
    have h2 : (medStage2 oracle inp).confidence_score = none := by
      simp only [medStage2]
      rw [assess_financial_hardship_conf]
      exact h1
    obtain ⟨c3, hc3, hlo3, hhi3⟩ :=
      generate_medical_strategy_conf (oracle 2) (medStage2 oracle inp)
    have hc3' : (medStage3 oracle inp).confidence_score = some c3 := hc3
    have hc4' : (medStage4 oracle inp).confidence_score = some c3 := by
      simp only [medStage4]
      rw [create_medical_script_conf]
      exact hc3'
    have hc5' : (medStage5 oracle inp).confidence_score = some c3 := by
      simp only [medStage5]
      rw [calculate_medical_savings_conf]
      exact hc4'
    refine ⟨rfl, confWithin_none h1, confWithin_none h2, ?_, ?_, ?_,
      confNondecreasing_none h1, confNondecreasing_none h2, ?_, ?_, ?_⟩
    · exact confWithin_of_some hc3' (by linarith) (by linarith)
    · exact confWithin_of_some hc4' (by linarith) (by linarith)
    · exact confWithin_of_some hc5' (by linarith) (by linarith)
    · exact confNondecreasing_of hc3' hc4' (le_refl c3)
    · exact confNondecreasing_of hc4' hc5' (le_refl c3)
    · exact confWithin_of_some hc5' (by linarith) hhi3
  · -- subscription agent
    obtain ⟨ti, hti, hplo, hphi⟩ := identify_subscription_type_info (oracle 0) (mkSubState inp)
    have hti1 : (subStage1 oracle inp).type_info = some ti := hti
    have h1 : (subStage1 oracle inp).confidence_score = none := by
      simp only [subStage1]
      rw [identify_subscription_type_conf]
      rfl
    have h2 : (subStage2 oracle inp).confidence_score = none := by
      simp only [subStage2]
      rw [(analyse_usage_patterns_inv _ _).1]
      exact h1
    have h3 : (subStage3 oracle inp).confidence_score = none := by
      simp only [subStage3]
      rw [(research_alternatives_inv _ _).1]
      exact h2
    have hti3 : (subStage3 oracle inp).type_info = some ti := by
      simp only [subStage3, subStage2]
      rw [(research_alternatives_inv _ _).2, (analyse_usage_patterns_inv _ _).2]
      exact hti1
    obtain ⟨c4, hc4, hlo4, hhi4⟩ :=
      generate_subscription_strategy_conf (oracle 3) (subStage3 oracle inp) ti hti3 hplo hphi
    have hc4' : (subStage4 oracle inp).confidence_score = some c4 := hc4
    have hc5' : (subStage5 oracle inp).confidence_score = some c4 := by
      simp only [subStage5]
      rw [create_subscription_script_conf]
      exact hc4'
    have hc6' : (subStage6 oracle inp).confidence_score = some c4 := by
      simp only [subStage6]
      rw [calculate_subscription_savings_conf]
      exact hc5'
    refine ⟨rfl, confWithin_none h1, confWithin_none h2, confWithin_none h3, ?_, ?_, ?_,
      confNondecreasing_none h1, confNondecreasing_none h2, confNondecreasing_none h3,
      ?_, ?_, ?_⟩
    · exact confWithin_of_some hc4' (by linarith) (by linarith)
    · exact confWithin_of_some hc5' (by linarith) (by linarith)
    · exact confWithin_of_some hc6' (by linarith) (by linarith)
    · exact confNondecreasing_of hc4' hc5' (le_refl c4)
    · exact confNondecreasing_of hc5' hc6' (le_refl c4)
    · exact confWithin_of_some hc6' (by linarith) hhi4
  · -- telecom agent
    obtain ⟨ti, hti, hplo, hphi⟩ := identify_telecom_services_info (oracle 0) (mkTelState inp)
    have hti1 : (telStage1 oracle inp).type_info = some ti := hti
    have h1 : (telStage1 oracle inp).confidence_score = none := by
      simp only [telStage1]
      rw [identify_telecom_services_conf]
      rfl
    have h2 : (telStage2 oracle inp).confidence_score = none := by
      simp only [telStage2]
      rw [(analyse_usage_and_needs_inv _ _).1]
      exact h1
    have h3 : (telStage3 oracle inp).confidence_score = none := by
      simp only [telStage3]
      rw [(research_competitor_offers_inv _ _).1]
      exact h2
    have hti3 : (telStage3 oracle inp).type_info = some ti := by
      simp only [telStage3, telStage2]
      rw [(research_competitor_offers_inv _ _).2, (analyse_usage_and_needs_inv _ _).2]
      exact hti1
    obtain ⟨c4, hc4, hlo4, hhi4⟩ :=
      generate_telecom_strategy_conf (oracle 3) (telStage3 oracle inp) ti hti3 hplo hphi
    have hc4' : (telStage4 oracle inp).confidence_score = some c4 := hc4
    have hc5' : (telStage5 oracle inp).confidence_score = some c4 := by
      simp only [telStage5]
      rw [create_telecom_script_conf]
      exact hc4'
    have hc6' : (telStage6 oracle inp).confidence_score = some c4 := by
      simp only [telStage6]
      rw [calculate_telecom_savings_conf]
      exact hc5'
    refine ⟨rfl, confWithin_none h1, confWithin_none h2, confWithin_none h3, ?_, ?_, ?_,
      confNondecreasing_none h1, confNondecreasing_none h2, confNondecreasing_none h3,
      ?_, ?_, ?_⟩
    · exact confWithin_of_some hc4' (by linarith) hhi4
    · exact confWithin_of_some hc5' (by linarith) hhi4
    · exact confWithin_of_some hc6' (by linarith) hhi4
    · exact confNondecreasing_of hc4' hc5' (le_refl c4)
    · exact confNondecreasing_of hc5' hc6' (le_refl c4)
    · exact confWithin_of_some hc6' (by linarith) hhi4

/-- C3 witness: on the sample input with every LLM call failing, the
confidence after the first utility stage lies within the claimed range. -/
theorem specialist_confidence_invariant_witness :
    ConfWithin (utilStage1 (fun _ => none) sampleSpecInput).confidence_score 0 (19/20) :=
  (specialist_confidence_invariant sampleSpecInput (fun _ => none)).1.2.1

/-- C4: for every amount, each specialist savings-calculation stage computes,
for each of the three scenarios, `savings_amount = amount * percentage` and
`final_amount = amount - savings_amount` (medical) or
`monthly_savings = amount * percentage` and
`annual_savings = monthly_savings * 12` (subscription and telecom), with all
monetary values rounded to two decimal places, and its output is independent
of the LLM slot (no LLM call). -/
theorem savings_stage_arithmetic :
    (∀ (o : Option (List Char)) (s : MedState), 0 ≤ s.amount →
      MedicalSavingsArithmetic o s) ∧
    (∀ (o : Option (List Char)) (s : SubState), 0 ≤ s.amount →
      SubscriptionSavingsArithmetic o s) ∧
    (∀ (o : Option (List Char)) (s : TelState), 0 ≤ s.amount →
      TelecomSavingsArithmetic o s) := by
  refine ⟨fun o s _ => ⟨rfl, fun tbl htbl => ?_⟩,
          fun o s _ => ⟨rfl, fun tbl htbl => ?_⟩,
          fun o s _ => ⟨rfl, fun tbl htbl => ?_⟩⟩
  · by_cases he : s.has_errors
    · simp only [calculate_medical_savings, he, if_true] at htbl
      obtain rfl := Option.some.inj htbl
      refine ⟨⟨?_, ?_⟩, ⟨?_, ?_⟩, ⟨?_, ?_⟩⟩ <;> norm_num [MedOutcomeConsistent]
    · simp only [calculate_medical_savings, he, if_false] at htbl
      obtain rfl := Option.some.inj htbl
      refine ⟨⟨?_, ?_⟩, ⟨?_, ?_⟩, ⟨?_, ?_⟩⟩ <;> norm_num [MedOutcomeConsistent]
  · simp only [calculate_subscription_savings] at htbl
    obtain rfl := Option.some.inj htbl
    exact ⟨⟨rfl, rfl, rfl⟩, ⟨rfl, rfl, rfl⟩, ⟨rfl, rfl, rfl⟩⟩
  · simp only [calculate_telecom_savings] at htbl
    obtain rfl := Option.some.inj htbl
    exact ⟨⟨rfl, rfl, rfl⟩, ⟨rfl, rfl, rfl⟩, ⟨rfl, rfl, rfl⟩⟩

/-- C4 witness: the arithmetic at the sample states of the source's smoke
tests. -/
theorem savings_stage_arithmetic_witness :
    MedicalSavingsArithmetic none medSampleState ∧
    SubscriptionSavingsArithmetic none subSampleState ∧
    TelecomSavingsArithmetic none telSampleState :=
  ⟨savings_stage_arithmetic.1 none medSampleState (by norm_num [medSampleState, mkMedState]),
   savings_stage_arithmetic.2.1 none subSampleState (by norm_num [subSampleState, mkSubState]),
   savings_stage_arithmetic.2.2 none telSampleState (by norm_num [telSampleState, mkTelState])⟩

/-- C5 amended: `target_savings` equals exactly one of the three computed
scenarios.  The medical agent selects aggressive when confidence exceeds
`0.8` or an error was flagged, the subscription agent selects aggressive when
confidence exceeds `0.8`, and the telecom agent selects aggressive only when
both the confidence and the sub-type's negotiation potential exceed `0.8`;
in each agent confidence above `0.6` otherwise selects moderate, and
conservative is the default. -/
theorem target_savings_selection_rule :
    (∀ (o : Option (List Char)) (s : MedState),
      (calculate_medical_savings o s).target_savings =
        (calculate_medical_savings o s).savings_potential.map (fun tbl =>
          if 8/10 < s.confidence_score.getD (5/10) ∨ s.has_errors then tbl.aggressive
          else if 6/10 < s.confidence_score.getD (5/10) then tbl.moderate
          else tbl.conservative)) ∧
    (∀ (o : Option (List Char)) (s : SubState),
      (calculate_subscription_savings o s).target_savings =
        (calculate_subscription_savings o s).savings_potential.map (fun tbl =>
          if 8/10 < s.confidence_score.getD (5/10) then tbl.aggressive
          else if 6/10 < s.confidence_score.getD (5/10) then tbl.moderate
          else tbl.conservative)) ∧
    (∀ (o : Option (List Char)) (s : TelState),
      (calculate_telecom_savings o s).target_savings =
        (calculate_telecom_savings o s).savings_potential.map (fun tbl =>
          if 8/10 < s.confidence_score.getD (5/10) ∧
              8/10 < (s.type_info.map TelTypeInfo.negotiation_potential).getD (8/10) then
            tbl.aggressive
          else if 6/10 < s.confidence_score.getD (5/10) then tbl.moderate
          else tbl.conservative)) :=
  ⟨fun _ _ => rfl, fun _ _ => rfl, fun _ _ => rfl⟩

/-- C5 counterexample: a reachable telecom run (service type `mobile`, all
five strategy keywords present) ends with confidence `0.84 > 0.8`, yet its
`target_savings` is the moderate scenario, not the aggressive one, because
the mobile negotiation potential `0.8` fails the additional
`negotiation_potential > 0.8` test of the telecom savings stage. -/
theorem telecom_high_confidence_selects_moderate :
    (runTelecom telCounterOracle (mkTelState telCounterInput)).confidence_score =
      some (84/100) ∧
    (8 : ℚ)/10 < 84/100 ∧
    (runTelecom telCounterOracle (mkTelState telCounterInput)).savings_potential =
      some ⟨⟨35/2, 210, 35/2⟩, ⟨25, 300, 25⟩, ⟨65/2, 390, 65/2⟩⟩ ∧
    (runTelecom telCounterOracle (mkTelState telCounterInput)).target_savings =
      some ⟨25, 300, 25⟩ ∧
    (⟨25, 300, 25⟩ : ScenarioOutcome) ≠ ⟨65/2, 390, 65/2⟩ := by
  have hrun : runTelecom telCounterOracle (mkTelState telCounterInput) =
      telStage6 telCounterOracle telCounterInput := rfl
  have ho3 : telCounterOracle 3 =
      some (str "competitor retention promotional usage cancel") := rfl
  have hti3 : (telStage3 telCounterOracle telCounterInput).type_info = some mobileInfo := rfl
  have hb : countTrue
      [charsContain (lowerChars (str "competitor retention promotional usage cancel"))
        (str "competitor"),
       charsContain (lowerChars (str "competitor retention promotional usage cancel"))
        (str "retention"),
       charsContain (lowerChars (str "competitor retention promotional usage cancel"))
        (str "promotional"),
       charsContain (lowerChars (str "competitor retention promotional usage cancel"))
        (str "usage"),
       charsContain (lowerChars (str "competitor retention promotional usage cancel"))
        (str "cancel")] = 5 := by decide
  have hpot : ((some mobileInfo).map TelTypeInfo.negotiation_potential).getD (8/10) =
      (8 : ℚ)/10 := rfl
  have hconf4 : (telStage4 telCounterOracle telCounterInput).confidence_score =
      some (84/100) := by
    simp only [telStage4, ho3, generate_telecom_strategy, hti3, hpot, hb]
    rw [min_eq_left (by norm_num)]
    norm_num
  have hconf5 : (telStage5 telCounterOracle telCounterInput).confidence_score =
      some (84/100) := by
    simp only [telStage5]
    rw [create_telecom_script_conf]
    exact hconf4
  have hti5 : (telStage5 telCounterOracle telCounterInput).type_info = some mobileInfo := rfl
  have ha5 : (telStage5 telCounterOracle telCounterInput).amount = 100 := rfl
  have htyp : ((some mobileInfo).map TelTypeInfo.typical_savings).getD (25/100) =
      (25 : ℚ)/100 := rfl
  have h6sp : (telStage6 telCounterOracle telCounterInput).savings_potential =
      some ⟨⟨35/2, 210, 35/2⟩, ⟨25, 300, 25⟩, ⟨65/2, 390, 65/2⟩⟩ := by
    simp only [telStage6, calculate_telecom_savings, hti5, ha5, htyp]
    norm_num [pyRound, pyRoundInt]
  have h6t : (telStage6 telCounterOracle telCounterInput).target_savings =
      some ⟨25, 300, 25⟩ := by
    simp only [telStage6, calculate_telecom_savings, hti5, hconf5, ha5, htyp, hpot,
      Option.getD_some]
    rw [if_neg (by norm_num), if_pos (by norm_num : (6 : ℚ)/10 < 84/100)]
    norm_num [pyRound, pyRoundInt]
  have h6c : (telStage6 telCounterOracle telCounterInput).confidence_score =
      some (84/100) := by
    simp only [telStage6]
    rw [calculate_telecom_savings_conf]
    exact hconf5
  refine ⟨hrun ▸ h6c, by norm_num, hrun ▸ h6sp, hrun ▸ h6t, fun h => ?_⟩
  have := congrArg ScenarioOutcome.monthly_savings h
  norm_num at this

/-- A non-empty list always has a last element. -/
theorem cons_getLast?_some {α : Type} (b : α) (t : List α) :
    ∃ x, (b :: t).getLast? = some x := by
  induction t generalizing b with
  | nil => exact ⟨b, rfl⟩
  | cons c t ih =>
    rw [List.getLast?_cons_cons]
    exact ih c

/-- Pushing a head through `getLast?` with a default. -/
theorem getLast?_cons_getD {α : Type} (a d : α) (l : List α) :
    ((a :: l).getLast?).getD d = (l.getLast?).getD a := by
  cases l with
  | nil => rfl
  | cons b t =>
    obtain ⟨x, hx⟩ := cons_getLast?_some b t
    rw [List.getLast?_cons_cons, hx]
    rfl

/-- One iteration of the parsing loop in terms of the per-line values. -/
theorem parseDetailLine_eq (s : BillState) (line : List Char) :
    parseDetailLine s line =
      { s with company := (lineCompanyValue line).getD s.company,
               amount := (lineAmountValue line).getD s.amount } := by
  unfold parseDetailLine lineCompanyValue lineAmountValue
  split_ifs with h1 h2
  · rfl
  · cases hm : searchNumToken (trimChars (removeAll (str "Amount:") line)) with
    | none => simp [hm]
    | some tok => simp [hm]
  · rfl

/-- The parsing loop keeps the value contributed by the last matching line
(or the prior state value when no line matches). -/
theorem foldl_parseDetailLine (lines : List (List Char)) (s : BillState) :
    (lines.foldl parseDetailLine s).company =
      ((lines.filterMap lineCompanyValue).getLast?).getD s.company ∧
    (lines.foldl parseDetailLine s).amount =
      ((lines.filterMap lineAmountValue).getLast?).getD s.amount := by
  induction lines generalizing s with
  | nil => exact ⟨rfl, rfl⟩
  | cons l rest ih =>
    rw [List.foldl_cons]
    obtain ⟨ihc, iha⟩ := ih (parseDetailLine s l)
    constructor
    · rw [ihc]
      simp only [parseDetailLine_eq]
      cases cf : lineCompanyValue l with
      | none => simp [List.filterMap_cons, cf]
      | some v => simp [List.filterMap_cons, cf, getLast?_cons_getD]
    · rw [iha]
      simp only [parseDetailLine_eq]
      cases cf : lineAmountValue l with
      | none => simp [List.filterMap_cons, cf]
      | some v => simp [List.filterMap_cons, cf, getLast?_cons_getD]

/-- C8 amended: on a successful LLM extraction, the company is taken from the
last `Company:`-prefixed line (trimmed, remaining unchanged when no such line
exists — the empty string in `process_bill`'s fresh state), and the amount
from the last `Amount:`-prefixed line whose regex search matches (the value
`0.0` when its float parse fails, the amount remaining unchanged when no
`Amount:` line matches); when the LLM call raises, company is `Unknown` and
amount `0.0`. -/
theorem extract_bill_details_parse_policy :
    (∀ (details : List Char) (state : BillState),
      (extract_bill_details (some details) state).company =
        (((splitLines details).filterMap lineCompanyValue).getLast?).getD state.company ∧
      (extract_bill_details (some details) state).amount =
        (((splitLines details).filterMap lineAmountValue).getLast?).getD state.amount) ∧
    (∀ state : BillState,
      extract_bill_details none state =
        { state with company := str "Unknown", amount := 0 }) := by
  refine ⟨fun details state => ?_, fun state => rfl⟩
  exact foldl_parseDetailLine (splitLines details) state

/-- C8 counterexample: a response with no `Company:` line leaves the company
at the initial empty string rather than `Unknown`, and with two `Company:`
lines the last one wins rather than the first. -/
theorem extract_bill_details_default_counterexample :
    (extract_bill_details (some (str "hello")) (initialBillState (str "BILL"))).company =
      [] ∧
    ([] : List Char) ≠ str "Unknown" ∧
    (extract_bill_details (some (str "Company: A\nCompany: B"))
        (initialBillState (str "BILL"))).company = str "B" ∧
    str "B" ≠ str "A" := by
  refine ⟨by decide, by decide, by decide, by decide⟩

/-- Full orchestrator run under a totally failing LLM: the router defaults to
`UTILITY`, the utility specialist degrades to confidence `0.3`, the run
branches to human handoff and completes with an empty error list (stage-level
LLM failures are only logged, never appended to `error_messages`). -/
theorem orchestrator_all_fail_core (bill_data : BillData) (user_id : List Char)
    (h : ¬ bill_data.text = []) :
    (runOrchestrator (fun _ => none)
        (initialNegotiationState bill_data user_id)).final_result.map
      FinalResult.execution_mode = some (str "human_handoff") ∧
    (runOrchestrator (fun _ => none)
        (initialNegotiationState bill_data user_id)).final_result.map
      FinalResult.processing_errors = some [] ∧
    (runOrchestrator (fun _ => none)
        (initialNegotiationState bill_data user_id)).processing_status =
      str "complete" := by
  have hdisp : runSpecialistFor (str "UTILITY") =
      some (fun oracle inp => utilView (runUtility oracle (mkUtilState inp))) := by
    unfold runSpecialistFor
    rw [if_pos rfl]
  have hmode : evaluate_confidence ((3 : ℚ)/10) = str "human_handoff" := by
    unfold evaluate_confidence CONFIDENCE_THRESHOLD_AUTO CONFIDENCE_THRESHOLD_SUPERVISED
    rw [if_neg (by norm_num), if_neg (by norm_num)]
  have h1 : route_negotiation (fun _ => none) (initialNegotiationState bill_data user_id) =
      { messages := [],
        bill_data := { text := bill_data.text, company := some (str "Unknown"),
                       amount := some (0 : ℚ), bill_type := some (str "UTILITY") },
        agent_decision := str "UTILITY", negotiation_result := none,
        confidence_score := 0, execution_mode := [], error_messages := [],
        processing_status := str "routed", user_id := user_id,
        execution_instructions := none, final_result := none } := by
    simp only [route_negotiation, initialNegotiationState]
    rw [if_neg h]
    rfl
  have h2 : execute_specialist_agent (fun _ => none)
      ({ messages := [],
         bill_data := { text := bill_data.text, company := some (str "Unknown"),
                        amount := some (0 : ℚ), bill_type := some (str "UTILITY") },
         agent_decision := str "UTILITY", negotiation_result := none,
         confidence_score := 0, execution_mode := [], error_messages := [],
         processing_status := str "routed", user_id := user_id,
         execution_instructions := none, final_result := none } : NegotiationState) =
      { messages := [],
        bill_data := { text := bill_data.text, company := some (str "Unknown"),
                       amount := some (0 : ℚ), bill_type := some (str "UTILITY") },
        agent_decision := str "UTILITY",
        negotiation_result := some ⟨some ((3 : ℚ)/10),
          some (str "Unable to generate strategy"), none,
          some (TargetSavings.utilityPct 0), none, none⟩,
        confidence_score := 3/10, execution_mode := [], error_messages := [],
        processing_status := str "specialist_complete", user_id := user_id,
        execution_instructions := none, final_result := none } := by
    simp only [execute_specialist_agent, hdisp]
    rfl
  have h3 : runOrchestrator (fun _ => none) (initialNegotiationState bill_data user_id) =
      finalize_processing (human_handoff
        { messages := [],
          bill_data := { text := bill_data.text, company := some (str "Unknown"),
                         amount := some (0 : ℚ), bill_type := some (str "UTILITY") },
          agent_decision := str "UTILITY",
          negotiation_result := some ⟨some ((3 : ℚ)/10),
            some (str "Unable to generate strategy"), none,
            some (TargetSavings.utilityPct 0), none, none⟩,
          confidence_score := 3/10, execution_mode := str "human_handoff",
          error_messages := [], processing_status := str "specialist_complete",
          user_id := user_id, execution_instructions := none, final_result := none }) := by
    simp only [runOrchestrator]
    rw [h1, h2]
    simp only [evaluate_confidence_node]
    rw [hmode, if_neg (by decide), if_neg (by decide)]
  rw [h3]
  exact ⟨rfl, rfl, rfl⟩

/-- C6 amended: if the LLM collaborator raises on every invocation, then for
every bill with non-empty OCR text the full orchestrator run still completes
(`processing_status = complete`, a final result is produced) and returns
`execution_mode = human_handoff`; however its `processing_errors` list is
empty, because every stage recovers its LLM failure locally and only logs it,
never appending to the orchestrator's error list. -/
theorem orchestrator_total_llm_failure (bill_data : BillData) (user_id : List Char)
    (h : bill_data.text ≠ []) :
    (runOrchestrator (fun _ => none)
        (initialNegotiationState bill_data user_id)).final_result.map
      FinalResult.execution_mode = some (str "human_handoff") ∧
    (runOrchestrator (fun _ => none)
        (initialNegotiationState bill_data user_id)).final_result.map
      FinalResult.processing_errors = some [] ∧
    (runOrchestrator (fun _ => none)
        (initialNegotiationState bill_data user_id)).processing_status =
      str "complete" :=
  orchestrator_all_fail_core bill_data user_id h

/-- C6 witness: the all-fail run on the sample bill data. -/
theorem orchestrator_total_llm_failure_witness :
    (runOrchestrator (fun _ => none)
        (initialNegotiationState sampleBillData (str "test_user"))).final_result.map
      FinalResult.execution_mode = some (str "human_handoff") ∧
    (runOrchestrator (fun _ => none)
        (initialNegotiationState sampleBillData (str "test_user"))).final_result.map
      FinalResult.processing_errors = some [] ∧
    (runOrchestrator (fun _ => none)
        (initialNegotiationState sampleBillData (str "test_user"))).processing_status =
      str "complete" :=
  orchestrator_total_llm_failure sampleBillData (str "test_user") (by decide)

/-- C6 counterexample: with every LLM call failing on a concrete non-empty
bill, the run does reach `human_handoff`, but the `processing_errors` list of
the returned result is empty, contradicting the claimed non-emptiness. -/
theorem orchestrator_all_fail_empty_errors :
    orchestrator_process_bill (fun _ => none) sampleBillData (str "anonymous") ≠ none ∧
    (orchestrator_process_bill (fun _ => none) sampleBillData (str "anonymous")).map
      FinalResult.execution_mode = some (str "human_handoff") ∧
    (orchestrator_process_bill (fun _ => none) sampleBillData (str "anonymous")).map
      FinalResult.processing_errors = some [] := by
  have h := orchestrator_all_fail_core sampleBillData (str "anonymous") (by decide)
  refine ⟨?_, h.1, h.2.1⟩
  intro hnone
  have : (runOrchestrator (fun _ => none)
      (initialNegotiationState sampleBillData (str "anonymous"))).final_result.map
        FinalResult.execution_mode = none := by
    rw [show (runOrchestrator (fun _ => none)
      (initialNegotiationState sampleBillData (str "anonymous"))).final_result =
        none from hnone]
    rfl
  rw [h.1] at this
  exact Option.noConfusion this
